import Mathlib

/-!
Verification of the pywal core pipeline (`pywal/__init__.py`, version 0.1.6):
palette generation, caching, the 16-slot palette mapper, terminal sequence
building, escape decoding, broadcast, reload, and the six export documents.

The Python functions are shallowly embedded as executable Lean definitions.
Conventions used throughout:

* Python exceptions (IndexError, ValueError, UnicodeDecodeError, OSError)
  are modelled by `Option`: a result of `none` means the Python code raises.
* Python lists of strings become `List String`; Python string indexing
  `s[i]` becomes `s.data.get? i`.
* File-system state and external processes (imagemagick, terminals) are
  modelled explicitly: the quantizer is an oracle `Nat → List String`
  giving its output lines for a requested color count, and writes are
  recorded rather than performed.
-/

namespace Pywal

/-! ## Definitions: the embedded program -/

/-- Python `"".join(l)`: plain concatenation of a list of strings. -/
def pyJoin : List String → String
  | [] => ""
  | s :: t => s ++ pyJoin t

/-- Python `"\n".join(l)`. -/
def joinNl : List String → String
  | [] => ""
  | [s] => s
  | s :: t => s ++ "\n" ++ joinNl t

/-- A single-character string holding an ASCII apostrophe (codepoint 39). -/
def squote : String := String.mk [Char.ofNat 39]

/-- Python `int(str(c))` for a single character `c`: succeeds exactly on the
ASCII decimal digits, raising `ValueError` (modelled as `none`) otherwise.
In particular `int('a')` raises: the call site in `set_grey` passes the
second character of a hex color string without a base argument. -/
def pyIntDigit (c : Char) : Option Nat :=
  if '0' ≤ c ∧ c ≤ '9' then some (c.toNat - 48) else none

/-- The fixed 10-entry grey table of `set_grey` (dict keys 0..9). -/
def greyTable (d : Nat) : Option String :=
  if d = 0 then some "#666666"
  else if d = 1 then some "#666666"
  else if d = 2 then some "#757575"
  else if d = 3 then some "#999999"
  else if d = 4 then some "#999999"
  else if d = 5 then some "#8a8a8a"
  else if d = 6 then some "#a1a1a1"
  else if d = 7 then some "#a1a1a1"
  else if d = 8 then some "#a1a1a1"
  else if d = 9 then some "#a1a1a1"
  else none

/-- `set_grey(colors)`: `{0: "#666666", ...}.get(int(colors[0][1]), colors[7])`.
Evaluation order follows Python: `colors[0]` is indexed, its second character
taken, `int` applied (raising on non-digits), and only then the default
argument `colors[7]` is evaluated; finally `dict.get` falls back to that
default when the key is absent (unreachable for keys 0..9). -/
def set_grey (colors : List String) : Option String := do
  let c0 ← colors[0]?
  let ch ← c0.data[1]?
  let d ← pyIntDigit ch
  let fallback ← colors[7]?
  pure ((greyTable d).getD fallback)

/-- `sort_colors(colors)`: builds the 16-slot palette
`[colors[0], colors[9..15], set_grey(colors), colors[9..15]]`. -/
def sort_colors (colors : List String) : Option (List String) := do
  let c0 ← colors[0]?
  let c9 ← colors[9]?
  let c10 ← colors[10]?
  let c11 ← colors[11]?
  let c12 ← colors[12]?
  let c13 ← colors[13]?
  let c14 ← colors[14]?
  let c15 ← colors[15]?
  let g ← set_grey colors
  pure [c0, c9, c10, c11, c12, c13, c14, c15, g, c9, c10, c11, c12, c13, c14, c15]

/-- C1 counterexample input: 16 well-formed hex entries whose first entry
has the hex letter 'a' as its second character. -/
def c1RawLetter : List String :=
  ["#abcdef", "#010101", "#020202", "#030303", "#040404", "#050505",
   "#060606", "#070707", "#080808", "#090909", "#0a0a0a", "#0b0b0b",
   "#0c0c0c", "#0d0d0d", "#0e0e0e", "#0f0f0f"]

/-- C2 failing and succeeding inputs: in the first, the second character of
`raw[0]` is the hex letter 'a'; in the second it is the digit '2'. -/
def c2RawLetter : List String :=
  ["#aabbcc", "#111111", "#222222", "#333333", "#444444", "#555555",
   "#666660", "#777770", "#888880", "#999990", "#aaaaa0", "#bbbbb0",
   "#ccccc0", "#ddddd0", "#eeee00", "#ffff00"]

/-- Digit-headed variant of the C2 input. -/
def c2RawDigit : List String :=
  ["#2abbcc", "#111111", "#222222", "#333333", "#444444", "#555555",
   "#666660", "#777770", "#888880", "#999990", "#aaaaa0", "#bbbbb0",
   "#ccccc0", "#ddddd0", "#eeee00", "#ffff00"]

def broadcast_writes {α : Type _} (targets : List α) (fails : α → Bool) :
    List α × Bool :=
  match targets with
  | [] => ([], false)
  | t :: ts =>
    if fails t then ([], true)
    else
      let r := broadcast_writes ts fails
      (t :: r.1, r.2)

def squoteChar : Char := Char.ofNat 39

/-- Octal digit test. -/
def isOct (c : Char) : Bool := '0' ≤ c && c ≤ '7'

/-- Value of an octal or decimal digit. -/
def octV (c : Char) : Nat := c.toNat - 48

/-- Hex digit test (both cases). -/
def isHexDig (c : Char) : Bool :=
  ('0' ≤ c && c ≤ '9') || ('a' ≤ c && c ≤ 'f') || ('A' ≤ c && c ≤ 'F')

/-- Value of a hex digit. -/
def hexV (c : Char) : Nat :=
  if c ≤ '9' then c.toNat - 48 else if c ≤ 'F' then c.toNat - 55 else c.toNat - 87

/-- Decoder state: `normal` text, `esc` just after a backslash, `oct1`/`oct2`
inside an octal escape holding its value so far, `hexS k acc u` expecting
`k` more hex digits with accumulated value `acc` (`u` marks a `\U` escape,
whose value must stay a valid codepoint). -/
inductive UeState where
  | normal : UeState
  | esc : UeState
  | oct1 : Nat → UeState
  | oct2 : Nat → UeState
  | hexS : Nat → Nat → Bool → UeState
deriving DecidableEq

/-- Decoder output at end of input: a pending octal escape emits its value,
a pending backslash or hex escape is an error. -/
def ueFinal : UeState → Option (List Char)
  | .normal => some []
  | .esc => none
  | .oct1 v => some [Char.ofNat v]
  | .oct2 v => some [Char.ofNat v]
  | .hexS _ _ _ => none

/-- One decoder transition: emitted characters and the next state, or a
decoding error. -/
def ueTrans : UeState → Char → Option (List Char × UeState)
  | .normal, c => if c = '\\' then some ([], .esc) else some ([c], .normal)
  | .esc, e =>
    if e = '\n' then some ([], .normal)
    else if e = '\\' then some (['\\'], .normal)
    else if e = squoteChar then some ([squoteChar], .normal)
    else if e = '"' then some (['"'], .normal)
    else if e = 'a' then some ([Char.ofNat 7], .normal)
    else if e = 'b' then some ([Char.ofNat 8], .normal)
    else if e = 'f' then some ([Char.ofNat 12], .normal)
    else if e = 'n' then some ([Char.ofNat 10], .normal)
    else if e = 'r' then some ([Char.ofNat 13], .normal)
    else if e = 't' then some ([Char.ofNat 9], .normal)
    else if e = 'v' then some ([Char.ofNat 11], .normal)
    else if isOct e then some ([], .oct1 (octV e))
    else if e = 'x' then some ([], .hexS 2 0 false)
    else if e = 'u' then some ([], .hexS 4 0 false)
    else if e = 'U' then some ([], .hexS 8 0 true)
    else if e = 'N' then none
    else some (['\\', e], .normal)
  | .oct1 v, c =>
    if isOct c then some ([], .oct2 (8 * v + octV c))
    else if c = '\\' then some ([Char.ofNat v], .esc)
    else some ([Char.ofNat v, c], .normal)
  | .oct2 v, c =>
    if isOct c then some ([Char.ofNat (8 * v + octV c)], .normal)
    else if c = '\\' then some ([Char.ofNat v], .esc)
    else some ([Char.ofNat v, c], .normal)
  | .hexS k acc u, c =>
    if isHexDig c then
      if k ≤ 1 then
        if u && 1114111 < 16 * acc + hexV c then none
        else some ([Char.ofNat (16 * acc + hexV c)], .normal)
      else some ([], .hexS (k - 1) (16 * acc + hexV c) u)
    else none

/-- Run the decoder over the characters. -/
def ueStep : UeState → List Char → Option (List Char)
  | st, [] => ueFinal st
  | st, c :: t =>
    match ueTrans st c with
    | none => none
    | some p => (ueStep p.2 t).map (fun l => p.1 ++ l)

/-- Python's `unicode_escape` codec over byte-characters. -/
def unicodeEscape (l : List Char) : Option (List Char) := ueStep .normal l

/-- UTF-8 encoding of one scalar value, as byte values. -/
def utf8Encode (c : Char) : List Nat :=
  let n := c.toNat
  if n < 128 then [n]
  else if n < 2048 then [192 + n / 64, 128 + n % 64]
  else if n < 65536 then [224 + n / 4096, 128 + n / 64 % 64, 128 + n % 64]
  else [240 + n / 262144, 128 + n / 4096 % 64, 128 + n / 64 % 64, 128 + n % 64]

/-- `bytes(string, "utf-8")` as a list of byte values. -/
def strBytes (s : String) : List Nat := s.data.flatMap utf8Encode

/-- `fix_escape(string)`: UTF-8 encode, then decode with `unicode_escape`
(each byte read as a character, as the codec treats bytes latin-1 style). -/
def fix_escape (s : String) : Option String :=
  (unicodeEscape ((strBytes s).map Char.ofNat)).map (fun l => String.mk l)

structure ColorTypeState where
  plain : List String
  xrdb : List String
  sequences : List String
  shell : List String
  scss : List String
  css : List String
  putty : List String
deriving DecidableEq

/-- The initial values of the `ColorType` class attributes. -/
def initial_colortype : ColorTypeState :=
  { plain := [], xrdb := [], sequences := [], shell := [], scss := [],
    css := [":root \x7b"],
    putty := ["Windows Registry Editor Version 5.00",
              "[HKEY_CURRENT_USER\\Software\\SimonTatham\\PuTTY\\Sessions\\Wal]"] }

/-- The special-slot fragment text `\033]{index};{color}\007` (escape
notation still undecoded). -/
def spec_frag (index : Nat) (color : String) : String :=
  "\\033]" ++ toString index ++ ";" ++ color ++ "\\007"

/-- The indexed-slot fragment text `\033]4;{index};{color}\007`. -/
def idx_frag (index : Nat) (color : String) : String :=
  "\\033]4;" ++ toString index ++ ";" ++ color ++ "\\007"

/-- `set_special(index, color)`: appends the special-color OSC fragment to
`sequences`, plus xresource directives for indices 10/11/12 and, for index
66, both xresource lines and an additional indexed (OSC 4) fragment. -/
def set_special (st : ColorTypeState) (index : Nat) (color : String) : ColorTypeState :=
  let st1 := { st with sequences := st.sequences ++ [spec_frag index color] }
  if index = 10 then
    { st1 with xrdb := st1.xrdb ++
      ["URxvt*foreground: " ++ color, "XTerm*foreground: " ++ color] }
  else if index = 11 then
    { st1 with xrdb := st1.xrdb ++
      ["URxvt*background: " ++ color, "XTerm*background: " ++ color] }
  else if index = 12 then
    { st1 with xrdb := st1.xrdb ++
      ["URxvt*cursorColor: " ++ color, "XTerm*cursorColor: " ++ color] }
  else if index = 66 then
    { st1 with
      xrdb := st1.xrdb ++ ["*.color" ++ toString index ++ ": " ++ color,
                           "*color" ++ toString index ++ ": " ++ color],
      sequences := st1.sequences ++ [idx_frag index color] }
  else st1

/-- Python `color.strip("#")`: remove leading and trailing `#` characters. -/
def pyStripHash (s : String) : String :=
  String.mk (((s.data.dropWhile (fun c => c = '#')).reverse.dropWhile
    (fun c => c = '#')).reverse)

/-- `bytes.fromhex`: hex digit pairs, ASCII spaces between bytes skipped,
anything else a `ValueError`. -/
def fromhexPairs : List Char → Option (List Nat)
  | [] => some []
  | ' ' :: r => fromhexPairs r
  | c1 :: c2 :: r =>
    if isHexDig c1 && isHexDig c2 then
      (fromhexPairs r).map (fun l => (16 * hexV c1 + hexV c2) :: l)
    else none
  | _ => none

/-- `hex_to_rgb(color)`: strip `#`, decode the hex pairs, unpack exactly
three bytes (a different count is an unpacking `ValueError`), and render
them as comma-joined decimal integers. -/
def hex_to_rgb (color : String) : Option String :=
  match fromhexPairs (pyStripHash color).data with
  | some [r, g, b] => some (toString r ++ "," ++ toString g ++ "," ++ toString b)
  | _ => none

/-- `set_color(index, color)`: appends the per-slot xresource pair, the
OSC 4 fragment, the shell, css and scss lines, then converts the color to
an RGB triple for the putty registry line (the conversion may raise, in
which case the earlier appends have happened but no result is produced —
the modelled palettes are well-formed, so the case is not reached). -/
def set_color (st : ColorTypeState) (index : Nat) (color : String) :
    Option ColorTypeState := do
  let st1 := { st with
    xrdb := st.xrdb ++ ["*.color" ++ toString index ++ ": " ++ color,
                        "*color" ++ toString index ++ ": " ++ color],
    sequences := st.sequences ++ [idx_frag index color],
    shell := st.shell ++ ["color" ++ toString index ++ "=" ++ squote ++ color ++ squote],
    css := st.css ++ ["\t--color" ++ toString index ++ ": " ++ color ++ ";"],
    scss := st.scss ++ ["$color" ++ toString index ++ ": " ++ color ++ ";"] }
  let rgb ← hex_to_rgb color
  pure { st1 with
    putty := st1.putty ++ ["\"Colour" ++ toString index ++ "\"=\"" ++ rgb ++ "\""] }

/-- The `enumerate(colors)` loop of `send_sequences`, calling `set_color`
for each slot in order. -/
def set_colors_loop (st : ColorTypeState) (i : Nat) : List String → Option ColorTypeState
  | [] => some st
  | c :: cs => (set_color st i c).bind (fun st' => set_colors_loop st' (i + 1) cs)

/-- `send_sequences(colors, vte)` up to the broadcast: the special slots
10..14 (and 708 unless `vte`), the sixteen indexed slots, the synthetic
slot 66, then the joined fragment list decoded by `fix_escape`.  The
result is the final accumulator state and the decoded blob written to
every target (the broadcast itself is modelled by `broadcast_writes`). -/
def send_sequences (st : ColorTypeState) (colors : List String) (vte : Bool) :
    Option (ColorTypeState × String) := do
  let c15 ← colors[15]?
  let c0 ← colors[0]?
  let st1 := set_special st 10 c15
  let st2 := set_special st1 11 c0
  let st3 := set_special st2 12 c15
  let st4 := set_special st3 13 c15
  let st5 := set_special st4 14 c0
  let st6 := if vte then st5 else set_special st5 708 c0
  let st7 ← set_colors_loop st6 0 colors
  let st8 := set_special st7 66 c0
  let blob ← fix_escape (pyJoin st8.sequences)
  pure (st8, blob)

/-- `save_colors` writes the joined lines plus a trailing newline; this is
the exact byte content of one export document. -/
def save_colors_content (lines : List String) : String := joinNl lines ++ "\n"

/-- The six export documents, by their cache-file roles. -/
structure ExportDocs where
  plainDoc : String
  shellDoc : String
  cssDoc : String
  scssDoc : String
  puttyDoc : String
  xrdbDoc : String
deriving DecidableEq

/-- The four rofi directive lines of `export_rofi`. -/
def rofiLines (c0 c9 c10 c15 : String) : List String :=
  ["rofi.color-window: " ++ c0 ++ ", " ++ c0 ++ ", " ++ c10,
   "rofi.color-normal: " ++ c0 ++ ", " ++ c15 ++ ", " ++ c0 ++ ", " ++ c10 ++ ", " ++ c0,
   "rofi.color-active: " ++ c0 ++ ", " ++ c15 ++ ", " ++ c0 ++ ", " ++ c10 ++ ", " ++ c0,
   "rofi.color-urgent: " ++ c0 ++ ", " ++ c9 ++ ", " ++ c0 ++ ", " ++ c9 ++ ", " ++ c15]

/-- The two emacs directive lines of `export_emacs`. -/
def emacsLines (c0 c15 : String) : List String :=
  ["emacs*background: " ++ c0, "emacs*foreground: " ++ c15]

/-- `export_rofi(colors)`: appends the rofi lines to the xrdb list. -/
def export_rofi (st : ColorTypeState) (colors : List String) : Option ColorTypeState := do
  let c0 ← colors[0]?
  let c10 ← colors[10]?
  let c15 ← colors[15]?
  let c9 ← colors[9]?
  pure { st with xrdb := st.xrdb ++ rofiLines c0 c9 c10 c15 }

/-- `export_emacs(colors)`: appends the emacs lines to the xrdb list. -/
def export_emacs (st : ColorTypeState) (colors : List String) : Option ColorTypeState := do
  let c0 ← colors[0]?
  let c15 ← colors[15]?
  pure { st with xrdb := st.xrdb ++ emacsLines c0 c15 }

/-- `export_colors(colors)`: renders the six documents from the current
accumulators — plain and shell first, then css after appending the block
closer to the shared css list, then scss and putty, then xrdb after
`export_rofi`/`export_emacs` have appended their lines.  Returns the
mutated state and the document contents written to the six cache files. -/
def export_colors (st : ColorTypeState) (colors : List String) :
    Option (ColorTypeState × ExportDocs) := do
  let plainDoc := save_colors_content st.plain
  let shellDoc := save_colors_content st.shell
  let st1 := { st with css := st.css ++ ["\x7d"] }
  let cssDoc := save_colors_content st1.css
  let scssDoc := save_colors_content st1.scss
  let puttyDoc := save_colors_content st1.putty
  let st2 ← export_rofi st1 colors
  let st3 ← export_emacs st2 colors
  let xrdbDoc := save_colors_content st3.xrdb
  pure (st3, ⟨plainDoc, shellDoc, cssDoc, scssDoc, puttyDoc, xrdbDoc⟩)

/-- A concrete palette and session state for the C3 evaluation. -/
def c3Palette : List String :=
  ["#111111", "#222222", "#333333", "#444444", "#555555", "#666666",
   "#777777", "#888888", "#999999", "#aaaaaa", "#bbbbbb", "#cccccc",
   "#dddddd", "#eeeeee", "#f0f0f0", "#ffffff"]

/-- Session state at export time for the C3 evaluation. -/
def c3State : ColorTypeState := { initial_colortype with plain := c3Palette }

/-- First render's css document. -/
def c3FirstCss : Option String :=
  (export_colors c3State c3Palette).map (fun r => r.2.cssDoc)

/-- Second render's css document, from the state the first render left. -/
def c3SecondCss : Option String :=
  (export_colors c3State c3Palette).bind
    (fun r => (export_colors r.1 c3Palette).map (fun q => q.2.cssDoc))

def starts708 (cs : List Char) : Bool :=
  decide (cs.take 6 = [']', '7', '0', '8', ';', '#']) && decide (12 ≤ cs.length) &&
    ((cs.drop 6).take 6).all (fun c => c != '\n')

/-- Number of regex matches of the 708 pattern. -/
def count708 : List Char → Nat
  | [] => 0
  | c :: cs => if starts708 (c :: cs) then 1 + count708 (cs.drop 11) else count708 cs
  termination_by l => l.length
  decreasing_by
    all_goals simp_wf
    all_goals omega

/-- `re.sub` of the 708 pattern with the empty string. -/
def sub708 : List Char → List Char
  | [] => []
  | c :: cs => if starts708 (c :: cs) then sub708 (cs.drop 11) else c :: sub708 cs
  termination_by l => l.length
  decreasing_by
    all_goals simp_wf
    all_goals omega

/-- A well-formed `#RRGGBB` string: seven characters, a leading `#`, six
hex digits. -/
def isHexColor (s : String) : Bool :=
  decide (s.data.length = 7) && decide (s.data.take 1 = ['#']) &&
    (s.data.drop 1).all isHexDig

def escWrap (mid : List Char) : List Char :=
  '\\' :: '0' :: '3' :: '3' :: (mid ++ ['\\', '0', '0', '7'])

/-- The decoded form of a wrapped fragment. -/
def escDecoded (mid : List Char) : List Char :=
  Char.ofNat 27 :: (mid ++ [Char.ofNat 7])

/-- A fragment middle that cannot take part in a 708 match. -/
def SkipMid (m : List Char) : Prop :=
  ∃ d rest, m = ']' :: d :: rest ∧ d ≠ '7' ∧ d ≠ ']' ∧ ∀ c ∈ rest, c ≠ ']'

/-- The middle of the 708 fragment for a well-formed color. -/
def HitMid (m : List Char) : Prop :=
  ∃ k1 k2 k3 k4 k5 k6,
    m = ']' :: '7' :: '0' :: '8' :: ';' :: '#' :: [k1, k2, k3, k4, k5, k6] ∧
    k1 ≠ '\n' ∧ k2 ≠ '\n' ∧ k3 ≠ '\n' ∧ k4 ≠ '\n' ∧ k5 ≠ '\n' ∧ k6 ≠ '\n'

/-- The indexed fragments produced by the `enumerate` loop from slot `i`. -/
def idxFrags (i : Nat) : List String → List String
  | [] => []
  | c :: cs => idx_frag i c :: idxFrags (i + 1) cs

/-- Python's line-break characters (`str.splitlines`). -/
def isLB (c : Char) : Bool :=
  c.toNat == 10 || c.toNat == 13 || c.toNat == 11 || c.toNat == 12 || c.toNat == 28 ||
  c.toNat == 29 || c.toNat == 30 || c.toNat == 133 || c.toNat == 8232 || c.toNat == 8233

/-- Helper for `pySplitlines`: `acc` holds the current line reversed, the
flag records whether the previous character was a carriage return, so that
`\r\n` counts as a single break; a trailing break adds no empty line. -/
def splitlinesAux : Bool → List Char → List Char → List String
  | _, acc, [] => if acc.isEmpty then [] else [String.mk acc.reverse]
  | afterCR, acc, c :: rest =>
    if afterCR ∧ c.toNat = 10 then splitlinesAux false acc rest
    else if c.toNat = 13 then String.mk acc.reverse :: splitlinesAux true [] rest
    else if isLB c then String.mk acc.reverse :: splitlinesAux false [] rest
    else splitlinesAux false (c :: acc) rest

/-- Python `s.splitlines()`. -/
def pySplitlines (s : String) : List String := splitlinesAux false [] s.data

/-- Characters that can occur in a sequence blob: ASCII, no backslash, no
line break.  Colors' hex characters and all fragment syntax satisfy it. -/
def seqChar (c : Char) : Prop := c.toNat < 128 ∧ c ≠ '\\' ∧ isLB c = false

instance seqChar_decidable (c : Char) : Decidable (seqChar c) := by
  unfold seqChar
  infer_instance

/-- `reload_colors(vte)`: read the persisted sequence cache file if it
exists (its lines are re-joined by `read_file` + `"".join`), strip the 708
fragment with `re.sub` when `vte` is requested, decode with `fix_escape`,
print the result to standard output with no trailing newline, and
`exit(0)`.  The result is the bytes written to stdout and the exit code;
`none` models a raised decoding error.  A missing file prints nothing and
still exits 0. -/
def reload_colors (file : Option String) (vte : Bool) : Option (String × Nat) :=
  match file with
  | none => some ("", 0)
  | some content =>
    let s := pyJoin (pySplitlines content)
    let s2 := if vte then String.mk (sub708 s.data) else s
    (fix_escape s2).map (fun out => (out, 0))

/-- `COLOR_COUNT`: the fixed baseline number of colors requested from the
quantizer. -/
def COLOR_COUNT : Nat := 16

/-- The retry loop of `gen_colors`: at retry index `index` the quantizer
oracle `im` is asked for `COLOR_COUNT + index` colors (`raw_colors =
imagemagick(COLOR_COUNT + index, img)`); while `len(raw_colors) - 1 <
COLOR_COUNT` holds, the index is incremented and the quantizer re-invoked
(Python `len(raw) - 1 < 16` and the truncated Nat subtraction agree: both
say `len(raw) < 17`).  The oracle stands for the external `imagemagick`
subprocess and returns the textual lines of its output; `fuel` bounds the
unbounded Python loop, and running out of fuel models divergence.  The
first component records every requested count, in order. -/
def genRetry (im : Nat → List String) : Nat → Nat → List Nat × Option (List String)
  | fuel, index =>
    let raw := im (COLOR_COUNT + index)
    if raw.length - 1 < COLOR_COUNT then
      match fuel with
      | 0 => ([COLOR_COUNT + index], none)
      | f + 1 =>
        let p := genRetry im f (index + 1)
        ((COLOR_COUNT + index) :: p.1, p.2)
    else ([COLOR_COUNT + index], some raw)

/-- One attempted match of the regex hash-dot-six at the head of the text:
a `#` followed by six characters other than a line feed (regex `.` does
not match a line feed). -/
def hexAt : List Char → Option (List Char)
  | '#' :: c1 :: c2 :: c3 :: c4 :: c5 :: c6 :: _ =>
    if c1 != '\n' && c2 != '\n' && c3 != '\n' &&
        c4 != '\n' && c5 != '\n' && c6 != '\n' then
      some ['#', c1, c2, c3, c4, c5, c6]
    else none
  | _ => none

/-- Python re.search of hash-dot-six over one quantizer output line: the
leftmost occurrence wins, and the result is `none` when there is no match
anywhere in the line. -/
def reSearchHex : List Char → Option (List Char)
  | [] => none
  | c :: rest =>
    match hexAt (c :: rest) with
    | some m => some m
    | none => reSearchHex rest

/-- `gen_colors(img)`: run the quantizer retry loop, delete the header line
(`del raw_colors[0]`, an `IndexError` — `none` — on an empty list,
unreachable because the loop only exits with at least 17 lines), then take
the first hash-dot-six match of each remaining line (`.group(0)` on the
result of re.search, an `AttributeError` — `none` — when a line has no
match).  The requested counts are returned alongside the outcome. -/
def gen_colors (im : Nat → List String) (fuel : Nat) : List Nat × Option (List String) :=
  let p := genRetry im fuel 0
  (p.1, p.2.bind (fun raw =>
    match raw with
    | [] => none
    | _ :: rest => rest.mapM (fun col => (reSearchHex col.data).map String.mk)))

/-- The cache-directory state touched by `get_colors`: the wallpaper record
file `CACHE_DIR / "wal"` and the palette cache files under
`CACHE_DIR / "schemes"`, keyed by sanitized image identifier. -/
structure FS where
  wal : Option String
  schemes : String → Option String

/-- Observable events of one `get_colors` run: the color counts requested
from the quantizer and the `notify` messages sent, each in order. -/
structure Events where
  quantizerCalls : List Nat
  notifyMsgs : List String
deriving DecidableEq

/-- The cache-file key for an image path: `img.replace("/", "_")` (the
pattern is the single character `/`, so the replacement is per
character). -/
def pyReplaceSlash (s : String) : String :=
  String.mk (s.data.map (fun c => if c = '/' then '_' else c))

/-- `get_colors(img)`: write `img` to the wallpaper record
(`save_file(img, CACHE_DIR / "wal")`), then look up the cache file
`schemes / img.replace("/", "_")`.  On a hit, return the file content
split into lines (`read_file`) with no quantizer call and no
notification.  On a miss, notify, run `gen_colors` then `sort_colors`
(either exception propagates: `none`), write the palette joined with line
feeds to the cache file, and notify completion. -/
def get_colors (im : Nat → List String) (fuel : Nat) (fs : FS) (img : String) :
    FS × Events × Option (List String) :=
  let fs1 : FS := { fs with wal := some img }
  let key := pyReplaceSlash img
  match fs1.schemes key with
  | some content => (fs1, ⟨[], []⟩, some (pySplitlines content))
  | none =>
    let gen := gen_colors im fuel
    match gen.2 with
    | none => (fs1, ⟨gen.1, ["wal: Generating a colorscheme..."]⟩, none)
    | some hexes =>
      match sort_colors hexes with
      | none => (fs1, ⟨gen.1, ["wal: Generating a colorscheme..."]⟩, none)
      | some palette =>
        (⟨some img, fun k => if k = key then some (joinNl palette) else fs1.schemes k⟩,
         ⟨gen.1, ["wal: Generating a colorscheme...",
                  "wal: Generation complete."]⟩,
         some palette)

/-! ## Theorems -/

/-- A list of length at least 16 splits into 16 explicit heads and a tail. -/
theorem cons16_of_le_length {α : Type _} (l : List α) (h : 16 ≤ l.length) :
    ∃ a0 a1 a2 a3 a4 a5 a6 a7 a8 a9 b0 b1 b2 b3 b4 b5 t,
      l = a0 :: a1 :: a2 :: a3 :: a4 :: a5 :: a6 :: a7 :: a8 :: a9 ::
          b0 :: b1 :: b2 :: b3 :: b4 :: b5 :: t := by
  have step : ∀ m : List α, 1 ≤ m.length → ∃ x xs, m = x :: xs := by
    intro m hm
    cases m with
    | nil => simp at hm
    | cons x xs => exact ⟨x, xs, rfl⟩
  obtain ⟨a0, l, rfl⟩ := step l (by omega)
  obtain ⟨a1, l, rfl⟩ := step l (by simp at h; omega)
  obtain ⟨a2, l, rfl⟩ := step l (by simp at h; omega)
  obtain ⟨a3, l, rfl⟩ := step l (by simp at h; omega)
  obtain ⟨a4, l, rfl⟩ := step l (by simp at h; omega)
  obtain ⟨a5, l, rfl⟩ := step l (by simp at h; omega)
  obtain ⟨a6, l, rfl⟩ := step l (by simp at h; omega)
  obtain ⟨a7, l, rfl⟩ := step l (by simp at h; omega)
  obtain ⟨a8, l, rfl⟩ := step l (by simp at h; omega)
  obtain ⟨a9, l, rfl⟩ := step l (by simp at h; omega)
  obtain ⟨b0, l, rfl⟩ := step l (by simp at h; omega)
  obtain ⟨b1, l, rfl⟩ := step l (by simp at h; omega)
  obtain ⟨b2, l, rfl⟩ := step l (by simp at h; omega)
  obtain ⟨b3, l, rfl⟩ := step l (by simp at h; omega)
  obtain ⟨b4, l, rfl⟩ := step l (by simp at h; omega)
  obtain ⟨b5, l, rfl⟩ := step l (by simp at h; omega)
  exact ⟨a0, a1, a2, a3, a4, a5, a6, a7, a8, a9, b0, b1, b2, b3, b4, b5, l, rfl⟩

/-- For a digit `d ≤ 9` the grey table always has an entry. -/
theorem greyTable_isSome (d : Nat) (h : d ≤ 9) : ∃ g, greyTable d = some g := by
  interval_cases d <;> exact ⟨_, rfl⟩

/-- On a raw set whose first entry has a decimal digit as second character,
`sort_colors` succeeds and produces the claimed layout. -/
theorem sort_colors_layout (colors : List String) (hlen : 16 ≤ colors.length)
    (c0 : String) (ch : Char)
    (h0 : colors[0]? = some c0) (hch : c0.data[1]? = some ch)
    (hd : '0' ≤ ch ∧ ch ≤ '9') :
    ∃ p, sort_colors colors = some p ∧ p.length = 16 ∧
      p[0]? = colors[0]? ∧
      (∀ i, 1 ≤ i → i ≤ 7 →
        p[i]? = colors[8 + i]? ∧ p[8 + i]? = colors[8 + i]? ∧
        p[i]? = p[8 + i]?) := by
  obtain ⟨a0, a1, a2, a3, a4, a5, a6, a7, a8, a9, b0, b1, b2, b3, b4, b5, t, rfl⟩ :=
    cons16_of_le_length colors hlen
  have ha0 : a0 = c0 := by simpa using h0
  subst ha0
  have hsome : pyIntDigit ch = some (ch.toNat - 48) := by
    simp [pyIntDigit, hd]
  have hle : ch.toNat - 48 ≤ 9 := by
    have h2 : ch.toNat ≤ 57 := hd.2
    omega
  obtain ⟨g, hg⟩ := greyTable_isSome _ hle
  refine ⟨[a0, a9, b0, b1, b2, b3, b4, b5, g, a9, b0, b1, b2, b3, b4, b5], ?_, by simp, by simp, ?_⟩
  · simp [sort_colors, set_grey, hch, hsome, hg]
  · intro i h1 h7
    interval_cases i <;> simp

/-- C1: the claim as stated is false: on a raw set of length 16 whose first
entry is `"#abcdef"`, `sort_colors` does not return a 16-slot palette at
all — it raises `ValueError` (the grey computation applies `int` without a
base to the letter 'a'). -/
theorem c1_counterexample : sort_colors c1RawLetter = none := by decide

/-- C1 (amended): for every raw set of length at least 16 whose first entry
has a decimal digit as second character (so the grey lookup succeeds, the
code raising `ValueError` otherwise), `sort_colors` returns a palette of
length exactly 16 with slot 0 = raw[0], slots 1..7 = raw[9..15], slots
9..15 = raw[9..15], hence `palette[i] = palette[i+8]` for i in 1..7. -/
theorem c1_amended (colors : List String) (hlen : 16 ≤ colors.length)
    (c0 : String) (ch : Char)
    (h0 : colors[0]? = some c0) (hch : c0.data[1]? = some ch)
    (hd : '0' ≤ ch ∧ ch ≤ '9') :
    ∃ p, sort_colors colors = some p ∧ p.length = 16 ∧
      p[0]? = colors[0]? ∧
      (∀ i, 1 ≤ i → i ≤ 7 →
        p[i]? = colors[8 + i]? ∧ p[8 + i]? = colors[8 + i]? ∧
        p[i]? = p[8 + i]?) :=
  sort_colors_layout colors hlen c0 ch h0 hch hd

/-- C1 amended, instantiated at a concrete digit-headed raw set. -/
theorem c1_witness :
    ∃ p, sort_colors ["#102030", "#010101", "#020202", "#030303", "#040404",
        "#050505", "#060606", "#070707", "#080808", "#090909", "#0a0a0a",
        "#0b0b0b", "#0c0c0c", "#0d0d0d", "#0e0e0e", "#0f0f0f"] = some p ∧
      p.length = 16 ∧
      p[0]? = (["#102030", "#010101", "#020202", "#030303", "#040404",
        "#050505", "#060606", "#070707", "#080808", "#090909", "#0a0a0a",
        "#0b0b0b", "#0c0c0c", "#0d0d0d", "#0e0e0e", "#0f0f0f"] : List String)[0]? ∧
      (∀ i, 1 ≤ i → i ≤ 7 →
        p[i]? = (["#102030", "#010101", "#020202", "#030303", "#040404",
          "#050505", "#060606", "#070707", "#080808", "#090909", "#0a0a0a",
          "#0b0b0b", "#0c0c0c", "#0d0d0d", "#0e0e0e", "#0f0f0f"] : List String)[8 + i]? ∧
        p[8 + i]? = (["#102030", "#010101", "#020202", "#030303", "#040404",
          "#050505", "#060606", "#070707", "#080808", "#090909", "#0a0a0a",
          "#0b0b0b", "#0c0c0c", "#0d0d0d", "#0e0e0e", "#0f0f0f"] : List String)[8 + i]? ∧
        p[i]? = p[8 + i]?) :=
  c1_amended _ (by decide) "#102030" '1' (by decide) (by decide) (by decide)

/-- C2: the digit half of the claim holds (second character '2' selects the
table entry "#757575"), but for a second character in 'a'–'f' the code does
not fall back to `raw[7]`: `int('a')` raises `ValueError`, so `set_grey`
raises instead of returning `"#777770"`. The `.get` default `colors[7]` in
the source is unreachable for well-formed hex input. -/
theorem c2_code_bug :
    set_grey c2RawDigit = some "#757575" ∧ set_grey c2RawLetter = none := by
  constructor <;> decide

/-- C4: the claim is false: with targets `[0, 1, 2]` and the single target
`1` failing, target `2` never receives a write — the exception aborts the
comprehension. -/
theorem c4_counterexample :
    (broadcast_writes [0, 1, 2] (fun t => t == 1)).1 = [0] ∧
    2 ∉ (broadcast_writes [0, 1, 2] (fun t => t == 1)).1 := by
  decide

/-- C4 (amended): a write failure on one terminal-device target aborts
delivery of the blob to all remaining targets: exactly the targets strictly
before the first failing one receive a write, and the abort flag is set
precisely when some target fails. -/
theorem c4_amended {α : Type _} (targets : List α) (fails : α → Bool) :
    broadcast_writes targets fails =
      (targets.takeWhile (fun t => !fails t), targets.any fails) := by
  induction targets with
  | nil => rfl
  | cons t ts ih =>
    by_cases h : fails t = true
    · simp [broadcast_writes, h, List.takeWhile_cons, List.any_cons]
    · simp only [Bool.not_eq_true] at h
      simp [broadcast_writes, h, List.takeWhile_cons, List.any_cons, ih]

/-- Unfolding one decoder step. -/
theorem ueStep_cons (st : UeState) (c : Char) (t : List Char)
    (p : List Char × UeState) (h : ueTrans st c = some p) :
    ueStep st (c :: t) = (ueStep p.2 t).map (fun l => p.1 ++ l) := by
  simp [ueStep, h]

/-- A character other than backslash passes through the decoder. -/
theorem ue_plain (c : Char) (t : List Char) (h : c ≠ '\\') :
    unicodeEscape (c :: t) = (unicodeEscape t).map (fun l => c :: l) := by
  have ht : ueTrans .normal c = some ([c], .normal) := by simp [ueTrans, h]
  unfold unicodeEscape
  rw [ueStep_cons _ _ _ _ ht]
  cases hu : ueStep UeState.normal t <;> simp [hu]

/-- A backslash-free chunk passes through the decoder unchanged. -/
theorem ue_append_noBS (l t : List Char) (h : ∀ c ∈ l, c ≠ '\\') :
    unicodeEscape (l ++ t) = (unicodeEscape t).map (fun x => l ++ x) := by
  induction l with
  | nil => cases hu : unicodeEscape t <;> simp [hu]
  | cons c l ih =>
    have hc : c ≠ '\\' := h c (by simp)
    have ih' := ih (fun d hd => h d (by simp [hd]))
    rw [List.cons_append, ue_plain c (l ++ t) hc, ih']
    cases hu : unicodeEscape t <;> simp [hu]

/-- The literal text `\033` decodes to the single ESC character. -/
theorem ue_033 (t : List Char) :
    unicodeEscape ('\\' :: '0' :: '3' :: '3' :: t) =
      (unicodeEscape t).map (fun l => Char.ofNat 27 :: l) := by
  unfold unicodeEscape
  rw [ueStep_cons _ _ _ ([], .esc) (by decide),
    ueStep_cons _ _ _ ([], .oct1 0) (by decide),
    ueStep_cons _ _ _ ([], .oct2 3) (by decide),
    ueStep_cons _ _ _ ([Char.ofNat 27], .normal) (by decide)]
  cases hu : ueStep UeState.normal t <;> simp [hu]

/-- The literal text `\007` decodes to the single BEL character. -/
theorem ue_007 (t : List Char) :
    unicodeEscape ('\\' :: '0' :: '0' :: '7' :: t) =
      (unicodeEscape t).map (fun l => Char.ofNat 7 :: l) := by
  unfold unicodeEscape
  rw [ueStep_cons _ _ _ ([], .esc) (by decide),
    ueStep_cons _ _ _ ([], .oct1 0) (by decide),
    ueStep_cons _ _ _ ([], .oct2 0) (by decide),
    ueStep_cons _ _ _ ([Char.ofNat 7], .normal) (by decide)]
  cases hu : ueStep UeState.normal t <;> simp [hu]

/-- For ASCII characters the UTF-8 round trip through bytes is the
identity. -/
theorem bytes_ascii (l : List Char) (h : ∀ c ∈ l, c.toNat < 128) :
    (l.flatMap utf8Encode).map Char.ofNat = l := by
  induction l with
  | nil => rfl
  | cons c l ih =>
    have hc : c.toNat < 128 := h c (by simp)
    have ih' := ih (fun d hd => h d (by simp [hd]))
    simp [List.flatMap_cons, utf8Encode, hc, ih']

/-- `fix_escape` on an ASCII string is the escape decoder on its
characters. -/
theorem fix_escape_ascii (s : String) (h : ∀ c ∈ s.data, c.toNat < 128) :
    fix_escape s = (unicodeEscape s.data).map (fun l => String.mk l) := by
  unfold fix_escape strBytes
  rw [bytes_ascii s.data h]

/-- `fix_escape` is the identity on ASCII text with no backslash. -/
theorem fix_escape_id (s : String) (h1 : ∀ c ∈ s.data, c.toNat < 128)
    (h2 : ∀ c ∈ s.data, c ≠ '\\') : fix_escape s = some s := by
  rw [fix_escape_ascii s h1]
  have hap := ue_append_noBS s.data [] h2
  rw [List.append_nil] at hap
  rw [hap]
  obtain ⟨d⟩ := s
  simp [unicodeEscape, ueStep, ueFinal]

/-- C5: the claim is false as stated: the input `"\t"` (backslash then 't')
contains neither `\033` nor `\007`, yet `fix_escape` does not pass its
characters through unchanged — it decodes the pair to a single TAB
character. -/
theorem c5_counterexample :
    fix_escape (String.mk ['\\', 't']) = some (String.mk [Char.ofNat 9]) ∧
    String.mk [Char.ofNat 9] ≠ String.mk ['\\', 't'] := by
  refine ⟨by decide, by decide⟩

/-- C5 (amended): on ASCII input, `fix_escape` maps each literal `\033` to
the single ESC character 0x1B and each literal `\007` to the single BEL
character 0x07, and characters outside any backslash escape pass through
unchanged; but every other Python escape sequence is decoded as well (the
input is put through the full `unicode_escape` codec), and a trailing
backslash is an error rather than passing through. -/
theorem c5_amended :
    (∀ s : String, (∀ c ∈ s.data, c.toNat < 128) → (∀ c ∈ s.data, c ≠ '\\') →
      fix_escape s = some s) ∧
    (∀ s : String, (∀ c ∈ s.data, c.toNat < 128) →
      fix_escape (String.mk ('\\' :: '0' :: '3' :: '3' :: s.data)) =
        (fix_escape s).map (fun u => String.mk (Char.ofNat 27 :: u.data))) ∧
    (∀ s : String, (∀ c ∈ s.data, c.toNat < 128) →
      fix_escape (String.mk ('\\' :: '0' :: '0' :: '7' :: s.data)) =
        (fix_escape s).map (fun u => String.mk (Char.ofNat 7 :: u.data))) ∧
    fix_escape (String.mk ['\\']) = none := by
  have hmk : ∀ l : List Char, (String.mk l).data = l := fun _ => rfl
  refine ⟨?_, ?_, ?_, by decide⟩
  · exact fun s hascii hnb => fix_escape_id s hascii hnb
  · intro s hascii
    have hall : ∀ c ∈ (String.mk ('\\' :: '0' :: '3' :: '3' :: s.data)).data, c.toNat < 128 := by
      rw [hmk]
      intro c hc
      simp only [List.mem_cons] at hc
      rcases hc with rfl | rfl | rfl | rfl | hc
      · decide
      · decide
      · decide
      · decide
      · exact hascii c hc
    rw [fix_escape_ascii _ hall, fix_escape_ascii s hascii, hmk, ue_033]
    cases hu : unicodeEscape s.data <;> simp [hu]
  · intro s hascii
    have hall : ∀ c ∈ (String.mk ('\\' :: '0' :: '0' :: '7' :: s.data)).data, c.toNat < 128 := by
      rw [hmk]
      intro c hc
      simp only [List.mem_cons] at hc
      rcases hc with rfl | rfl | rfl | rfl | hc
      · decide
      · decide
      · decide
      · decide
      · exact hascii c hc
    rw [fix_escape_ascii _ hall, fix_escape_ascii s hascii, hmk, ue_007]
    cases hu : unicodeEscape s.data <;> simp [hu]

/-- C5 amended, instantiated: plain ASCII text passes through, and a
concrete `\033` prefix decodes to ESC. -/
theorem c5_witness :
    fix_escape (String.mk [']', '4', ';']) = some (String.mk [']', '4', ';']) :=
  c5_amended.1 (String.mk [']', '4', ';']) (by decide) (by decide)

/-- Joining a two-or-more element list peels off the head. -/
theorem joinNl_cons_cons (a b : String) (m : List String) :
    joinNl (a :: b :: m) = a ++ "\n" ++ joinNl (b :: m) := rfl

/-- Appending one line to a joined list. -/
theorem joinNl_append_single (l : List String) (x : String) :
    joinNl (l ++ [x]) = if l = [] then x else joinNl l ++ "\n" ++ x := by
  induction l with
  | nil => simp [joinNl]
  | cons a l ih =>
    cases l with
    | nil => simp [joinNl]
    | cons b m =>
      have h1 : (a :: b :: m) ++ [x] = a :: ((b :: m) ++ [x]) := by simp
      have h2 : (b :: m) ++ [x] = b :: (m ++ [x]) := by simp
      rw [h1, h2, joinNl_cons_cons, ← h2, ih]
      simp [joinNl_cons_cons, String.append_assoc]

/-- Appending a line can only lengthen the joined string, by at least the
line's length. -/
theorem joinNl_length_append_single (l : List String) (x : String) :
    (joinNl l).length + x.length ≤ (joinNl (l ++ [x])).length := by
  rw [joinNl_append_single]
  by_cases h : l = []
  · simp [h, joinNl]
  · simp [h, String.length_append]

/-- Appending lines can only lengthen the joined string. -/
theorem joinNl_length_mono (rs l : List String) :
    (joinNl l).length ≤ (joinNl (l ++ rs)).length := by
  induction rs generalizing l with
  | nil => simp
  | cons r rs ih =>
    have h1 := joinNl_length_append_single l r
    have h2 := ih (l ++ [r])
    rw [show l ++ r :: rs = (l ++ [r]) ++ rs by simp]
    omega

/-- Two strings of different length differ. -/
theorem string_ne_of_length_ne {a b : String} (h : a.length ≠ b.length) : a ≠ b :=
  fun e => h (by rw [e])

/-- The deterministic result of one `export_colors` call, given the four
palette slots that `export_rofi`/`export_emacs` read. -/
theorem export_colors_eq (st : ColorTypeState) (colors : List String)
    (c0 c9 c10 c15 : String)
    (h0 : colors[0]? = some c0) (h9 : colors[9]? = some c9)
    (h10 : colors[10]? = some c10) (h15 : colors[15]? = some c15) :
    export_colors st colors = some
      ({ st with css := st.css ++ ["\x7d"],
                 xrdb := st.xrdb ++ rofiLines c0 c9 c10 c15 ++ emacsLines c0 c15 },
       { plainDoc := save_colors_content st.plain
         shellDoc := save_colors_content st.shell
         cssDoc := save_colors_content (st.css ++ ["\x7d"])
         scssDoc := save_colors_content st.scss
         puttyDoc := save_colors_content st.putty
         xrdbDoc := save_colors_content
           (st.xrdb ++ rofiLines c0 c9 c10 c15 ++ emacsLines c0 c15) }) := by
  simp [export_colors, export_rofi, export_emacs, h0, h9, h10, h15, List.append_assoc]

/-- C3 (amended): rendering is a deterministic function of the Palette and
the accumulator state, but re-rendering the six documents from the same
unchanged Palette in the same session mutates the shared accumulators:
the plain, shell, scss-like and registry documents come out byte-identical,
while the css-like document gains an extra block-closing line and the
xresource document gains duplicated rofi and emacs lines, so those two are
not byte-identical between the renders. -/
theorem c3_amended (st : ColorTypeState) (colors : List String)
    (hlen : colors.length = 16) :
    ∃ st1 d1 st2 d2,
      export_colors st colors = some (st1, d1) ∧
      export_colors st1 colors = some (st2, d2) ∧
      d1.plainDoc = d2.plainDoc ∧ d1.shellDoc = d2.shellDoc ∧
      d1.scssDoc = d2.scssDoc ∧ d1.puttyDoc = d2.puttyDoc ∧
      d1.cssDoc ≠ d2.cssDoc ∧ d1.xrdbDoc ≠ d2.xrdbDoc := by
  obtain ⟨a0, a1, a2, a3, a4, a5, a6, a7, a8, a9, b0, b1, b2, b3, b4, b5, t, rfl⟩ :=
    cons16_of_le_length colors (by omega)
  have h0 : (a0 :: a1 :: a2 :: a3 :: a4 :: a5 :: a6 :: a7 :: a8 :: a9 ::
      b0 :: b1 :: b2 :: b3 :: b4 :: b5 :: t)[0]? = some a0 := by simp
  have h9 : (a0 :: a1 :: a2 :: a3 :: a4 :: a5 :: a6 :: a7 :: a8 :: a9 ::
      b0 :: b1 :: b2 :: b3 :: b4 :: b5 :: t)[9]? = some a9 := by simp
  have h10 : (a0 :: a1 :: a2 :: a3 :: a4 :: a5 :: a6 :: a7 :: a8 :: a9 ::
      b0 :: b1 :: b2 :: b3 :: b4 :: b5 :: t)[10]? = some b0 := by simp
  have h15 : (a0 :: a1 :: a2 :: a3 :: a4 :: a5 :: a6 :: a7 :: a8 :: a9 ::
      b0 :: b1 :: b2 :: b3 :: b4 :: b5 :: t)[15]? = some b5 := by simp
  have e1 := export_colors_eq st _ a0 a9 b0 b5 h0 h9 h10 h15
  have e2 := export_colors_eq
    { st with css := st.css ++ ["\x7d"],
              xrdb := st.xrdb ++ rofiLines a0 a9 b0 b5 ++ emacsLines a0 b5 }
    _ a0 a9 b0 b5 h0 h9 h10 h15
  refine ⟨_, _, _, _, e1, e2, rfl, rfl, rfl, rfl, ?_, ?_⟩
  · show save_colors_content (st.css ++ ["\x7d"]) ≠
      save_colors_content ((st.css ++ ["\x7d"]) ++ ["\x7d"])
    apply string_ne_of_length_ne
    have hA : st.css ++ ["\x7d"] ≠ [] := by simp
    have hstep := joinNl_append_single (st.css ++ ["\x7d"]) "\x7d"
    rw [if_neg hA] at hstep
    have e1n : ("\n" : String).length = 1 := rfl
    have e1b : ("\x7d" : String).length = 1 := rfl
    simp only [save_colors_content, hstep, String.length_append, e1n, e1b]
    omega
  · show save_colors_content (st.xrdb ++ rofiLines a0 a9 b0 b5 ++ emacsLines a0 b5) ≠
      save_colors_content ((st.xrdb ++ rofiLines a0 a9 b0 b5 ++ emacsLines a0 b5) ++
        rofiLines a0 a9 b0 b5 ++ emacsLines a0 b5)
    apply string_ne_of_length_ne
    set B := st.xrdb ++ rofiLines a0 a9 b0 b5 ++ emacsLines a0 b5 with hB
    have hsplit : B ++ rofiLines a0 a9 b0 b5 ++ emacsLines a0 b5 =
        (B ++ [("rofi.color-window: " ++ a0 ++ ", " ++ a0 ++ ", " ++ b0)]) ++
        (["rofi.color-normal: " ++ a0 ++ ", " ++ b5 ++ ", " ++ a0 ++ ", " ++ b0 ++ ", " ++ a0,
          "rofi.color-active: " ++ a0 ++ ", " ++ b5 ++ ", " ++ a0 ++ ", " ++ b0 ++ ", " ++ a0,
          "rofi.color-urgent: " ++ a0 ++ ", " ++ a9 ++ ", " ++ a0 ++ ", " ++ a9 ++ ", " ++ b5] ++
          emacsLines a0 b5) := by
      simp [rofiLines, emacsLines]
    have hlen1 := joinNl_length_append_single B
      ("rofi.color-window: " ++ a0 ++ ", " ++ a0 ++ ", " ++ b0)
    have hlen2 := joinNl_length_mono
      (["rofi.color-normal: " ++ a0 ++ ", " ++ b5 ++ ", " ++ a0 ++ ", " ++ b0 ++ ", " ++ a0,
        "rofi.color-active: " ++ a0 ++ ", " ++ b5 ++ ", " ++ a0 ++ ", " ++ b0 ++ ", " ++ a0,
        "rofi.color-urgent: " ++ a0 ++ ", " ++ a9 ++ ", " ++ a0 ++ ", " ++ a9 ++ ", " ++ b5] ++
        emacsLines a0 b5)
      (B ++ [("rofi.color-window: " ++ a0 ++ ", " ++ a0 ++ ", " ++ b0)])
    have hw : 19 ≤ ("rofi.color-window: " ++ a0 ++ ", " ++ a0 ++ ", " ++ b0).length := by
      have h19 : ("rofi.color-window: " : String).length = 19 := by decide
      simp only [String.length_append, h19]
      omega
    rw [hsplit]
    simp only [save_colors_content, String.length_append]
    omega

/-- C3: the claim is false: rendering the documents twice from the same
unchanged Palette produces different css-like documents (the second has an
extra closing brace line), so the documents are not a pure function of the
Palette alone. -/
theorem c3_counterexample :
    c3FirstCss.isSome = true ∧ c3SecondCss.isSome = true ∧
    c3FirstCss ≠ c3SecondCss := by
  refine ⟨by decide, by decide, by decide⟩

/-- A match starts with the right bracket. -/
theorem starts708_head {c : Char} {t : List Char} (h : starts708 (c :: t) = true) :
    c = ']' := by
  simp [starts708, List.take_succ_cons] at h
  exact h.1.1.1

/-- No match starts at a character other than the bracket. -/
theorem starts708_cons_ne (c : Char) (t : List Char) (h : c ≠ ']') :
    starts708 (c :: t) = false := by
  cases hs : starts708 (c :: t)
  · rfl
  · exact absurd (starts708_head hs) h

/-- No match when the character after the bracket is not '7'. -/
theorem starts708_bracket_ne (d : Char) (t : List Char) (h : d ≠ '7') :
    starts708 (']' :: d :: t) = false := by
  cases hs : starts708 (']' :: d :: t)
  · rfl
  · exfalso
    simp [starts708, List.take_succ_cons] at hs
    exact h hs.1.1.1

/-- Scanning past a non-bracket character. -/
theorem count708_cons_ne (c : Char) (t : List Char) (h : c ≠ ']') :
    count708 (c :: t) = count708 t := by
  simp [count708, starts708_cons_ne c t h]

/-- Scanning past a bracket not followed by '7'. -/
theorem count708_bracket_ne (d : Char) (t : List Char) (h : d ≠ '7') :
    count708 (']' :: d :: t) = count708 (d :: t) := by
  simp [count708, starts708_bracket_ne d t h]

/-- Scanning past a bracket-free chunk. -/
theorem count708_append_ne (l t : List Char) (h : ∀ c ∈ l, c ≠ ']') :
    count708 (l ++ t) = count708 t := by
  induction l with
  | nil => rfl
  | cons c l ih =>
    rw [List.cons_append, count708_cons_ne c _ (h c (by simp))]
    exact ih (fun d hd => h d (by simp [hd]))

/-- A literal 708 fragment body is one match, and scanning resumes after
its six color characters. -/
theorem count708_hit (h1 h2 h3 h4 h5 h6 : Char) (t : List Char)
    (hn1 : h1 ≠ '\n') (hn2 : h2 ≠ '\n') (hn3 : h3 ≠ '\n')
    (hn4 : h4 ≠ '\n') (hn5 : h5 ≠ '\n') (hn6 : h6 ≠ '\n') :
    count708 (']' :: '7' :: '0' :: '8' :: ';' :: '#' ::
      h1 :: h2 :: h3 :: h4 :: h5 :: h6 :: t) = 1 + count708 t := by
  have hs : starts708 (']' :: '7' :: '0' :: '8' :: ';' :: '#' ::
      h1 :: h2 :: h3 :: h4 :: h5 :: h6 :: t) = true := by
    simp [starts708, hn1, hn2, hn3, hn4, hn5, hn6]
  simp [count708, hs]

/-- `sub708` keeps a non-bracket character. -/
theorem sub708_cons_ne (c : Char) (t : List Char) (h : c ≠ ']') :
    sub708 (c :: t) = c :: sub708 t := by
  simp [sub708, starts708_cons_ne c t h]

/-- `sub708` keeps a bracket not followed by '7'. -/
theorem sub708_bracket_ne (d : Char) (t : List Char) (h : d ≠ '7') :
    sub708 (']' :: d :: t) = ']' :: sub708 (d :: t) := by
  simp [sub708, starts708_bracket_ne d t h]

/-- `sub708` keeps a bracket-free chunk. -/
theorem sub708_append_ne (l t : List Char) (h : ∀ c ∈ l, c ≠ ']') :
    sub708 (l ++ t) = l ++ sub708 t := by
  induction l with
  | nil => rfl
  | cons c l ih =>
    rw [List.cons_append, sub708_cons_ne c _ (h c (by simp))]
    rw [ih (fun d hd => h d (by simp [hd]))]
    rfl

/-- `sub708` removes a literal 708 fragment body. -/
theorem sub708_hit (h1 h2 h3 h4 h5 h6 : Char) (t : List Char)
    (hn1 : h1 ≠ '\n') (hn2 : h2 ≠ '\n') (hn3 : h3 ≠ '\n')
    (hn4 : h4 ≠ '\n') (hn5 : h5 ≠ '\n') (hn6 : h6 ≠ '\n') :
    sub708 (']' :: '7' :: '0' :: '8' :: ';' :: '#' ::
      h1 :: h2 :: h3 :: h4 :: h5 :: h6 :: t) = sub708 t := by
  have hs : starts708 (']' :: '7' :: '0' :: '8' :: ';' :: '#' ::
      h1 :: h2 :: h3 :: h4 :: h5 :: h6 :: t) = true := by
    simp [starts708, hn1, hn2, hn3, hn4, hn5, hn6]
  simp [sub708, hs]

/-- A hex digit differs from any non-hex-digit character. -/
theorem isHexDig_ne {c x : Char} (h : isHexDig c = true) (hx : isHexDig x = false) :
    c ≠ x := fun e => by subst e; rw [h] at hx; exact Bool.noConfusion hx

/-- A well-formed hex color splits into `#` and six hex digit characters. -/
theorem hexColor_shape (s : String) (h : isHexColor s = true) :
    ∃ l, s.data = '#' :: l ∧ l.length = 6 ∧ ∀ c ∈ l, isHexDig c = true := by
  obtain ⟨d⟩ := s
  simp [isHexColor] at h
  obtain ⟨⟨hlen, htake⟩, hall⟩ := h
  cases d with
  | nil => simp at htake
  | cons c0 rest =>
    simp [List.take_succ_cons] at htake
    subst htake
    refine ⟨rest, rfl, by simpa using hlen, ?_⟩
    intro c hc
    simpa using hall c hc

/-- No character of a well-formed hex color is a right bracket. -/
theorem hexColor_no_rbr (s : String) (h : isHexColor s = true) :
    ∀ c ∈ s.data, c ≠ ']' := by
  obtain ⟨l, hd, _, hdig⟩ := hexColor_shape s h
  rw [hd]
  intro c hc
  rcases List.mem_cons.1 hc with rfl | hc
  · decide
  · exact isHexDig_ne (hdig c hc) (by decide)

/-- No character of a well-formed hex color is a backslash. -/
theorem hexColor_no_bs (s : String) (h : isHexColor s = true) :
    ∀ c ∈ s.data, c ≠ '\\' := by
  obtain ⟨l, hd, _, hdig⟩ := hexColor_shape s h
  rw [hd]
  intro c hc
  rcases List.mem_cons.1 hc with rfl | hc
  · decide
  · exact isHexDig_ne (hdig c hc) (by decide)

/-- A skip fragment contributes no 708 match (undecoded form). -/
theorem count708_skip_frag (m rest : List Char) (h : SkipMid m) :
    count708 (escWrap m ++ rest) = count708 rest := by
  obtain ⟨d, r, rfl, h7, hbr, hrest⟩ := h
  simp only [escWrap, List.cons_append, List.append_assoc, List.nil_append]
  rw [count708_cons_ne '\\' _ (by decide), count708_cons_ne '0' _ (by decide),
    count708_cons_ne '3' _ (by decide), count708_cons_ne '3' _ (by decide),
    count708_bracket_ne d _ h7, count708_cons_ne d _ hbr,
    count708_append_ne r _ hrest,
    count708_cons_ne '\\' _ (by decide), count708_cons_ne '0' _ (by decide),
    count708_cons_ne '0' _ (by decide), count708_cons_ne '7' _ (by decide)]

/-- The 708 fragment contributes exactly one match (undecoded form). -/
theorem count708_hit_frag (m rest : List Char) (h : HitMid m) :
    count708 (escWrap m ++ rest) = 1 + count708 rest := by
  obtain ⟨k1, k2, k3, k4, k5, k6, rfl, hn1, hn2, hn3, hn4, hn5, hn6⟩ := h
  simp only [escWrap, List.cons_append, List.append_assoc, List.nil_append]
  rw [count708_cons_ne '\\' _ (by decide), count708_cons_ne '0' _ (by decide),
    count708_cons_ne '3' _ (by decide), count708_cons_ne '3' _ (by decide),
    count708_hit k1 k2 k3 k4 k5 k6 _ hn1 hn2 hn3 hn4 hn5 hn6,
    count708_cons_ne '\\' _ (by decide), count708_cons_ne '0' _ (by decide),
    count708_cons_ne '0' _ (by decide), count708_cons_ne '7' _ (by decide)]

/-- A block of skip fragments contributes no 708 match. -/
theorem count708_skip_join (mids : List (List Char)) (rest : List Char)
    (h : ∀ m ∈ mids, SkipMid m) :
    count708 ((mids.map escWrap).flatten ++ rest) = count708 rest := by
  induction mids with
  | nil => rfl
  | cons m mids ih =>
    simp only [List.map_cons, List.flatten_cons, List.append_assoc]
    rw [count708_skip_frag m _ (h m (by simp))]
    exact ih (fun x hx => h x (by simp [hx]))

/-- Decoded skip fragments contribute no 708 match either. -/
theorem count708_skip_dfrag (m rest : List Char) (h : SkipMid m) :
    count708 (escDecoded m ++ rest) = count708 rest := by
  obtain ⟨d, r, rfl, h7, hbr, hrest⟩ := h
  simp only [escDecoded, List.cons_append, List.append_assoc, List.nil_append]
  rw [count708_cons_ne (Char.ofNat 27) _ (by decide),
    count708_bracket_ne d _ h7, count708_cons_ne d _ hbr,
    count708_append_ne r _ hrest, count708_cons_ne (Char.ofNat 7) _ (by decide)]

/-- A block of decoded skip fragments contributes no 708 match. -/
theorem count708_skip_djoin (mids : List (List Char)) (rest : List Char)
    (h : ∀ m ∈ mids, SkipMid m) :
    count708 ((mids.map escDecoded).flatten ++ rest) = count708 rest := by
  induction mids with
  | nil => rfl
  | cons m mids ih =>
    simp only [List.map_cons, List.flatten_cons, List.append_assoc]
    rw [count708_skip_dfrag m _ (h m (by simp))]
    exact ih (fun x hx => h x (by simp [hx]))

/-- `sub708` keeps a decoded skip fragment verbatim. -/
theorem sub708_skip_dfrag (m rest : List Char) (h : SkipMid m) :
    sub708 (escDecoded m ++ rest) = escDecoded m ++ sub708 rest := by
  obtain ⟨d, r, rfl, h7, hbr, hrest⟩ := h
  simp only [escDecoded, List.cons_append, List.append_assoc, List.nil_append]
  rw [sub708_cons_ne (Char.ofNat 27) _ (by decide),
    sub708_bracket_ne d _ h7, sub708_cons_ne d _ hbr,
    sub708_append_ne r _ hrest, sub708_cons_ne (Char.ofNat 7) _ (by decide)]

/-- `sub708` keeps a block of decoded skip fragments verbatim. -/
theorem sub708_skip_djoin (mids : List (List Char)) (rest : List Char)
    (h : ∀ m ∈ mids, SkipMid m) :
    sub708 ((mids.map escDecoded).flatten ++ rest) =
      (mids.map escDecoded).flatten ++ sub708 rest := by
  induction mids with
  | nil => rfl
  | cons m mids ih =>
    simp only [List.map_cons, List.flatten_cons, List.append_assoc]
    rw [sub708_skip_dfrag m _ (h m (by simp))]
    rw [ih (fun x hx => h x (by simp [hx]))]

/-- `sub708` strips the body of the decoded 708 fragment, leaving its bare
ESC and BEL wrappers. -/
theorem sub708_hit_dfrag (m rest : List Char) (h : HitMid m) :
    sub708 (escDecoded m ++ rest) =
      Char.ofNat 27 :: Char.ofNat 7 :: sub708 rest := by
  obtain ⟨k1, k2, k3, k4, k5, k6, rfl, hn1, hn2, hn3, hn4, hn5, hn6⟩ := h
  simp only [escDecoded, List.cons_append, List.append_assoc, List.nil_append]
  rw [sub708_cons_ne (Char.ofNat 27) _ (by decide),
    sub708_hit k1 k2 k3 k4 k5 k6 _ hn1 hn2 hn3 hn4 hn5 hn6,
    sub708_cons_ne (Char.ofNat 7) _ (by decide)]

/-- Decoding a wrapped fragment. -/
theorem ue_escWrap_append (m rest : List Char) (hm : ∀ c ∈ m, c ≠ '\\') :
    unicodeEscape (escWrap m ++ rest) =
      (unicodeEscape rest).map (fun l => escDecoded m ++ l) := by
  simp only [escWrap, List.cons_append, List.append_assoc, List.nil_append]
  rw [ue_033, ue_append_noBS m _ hm, ue_007]
  cases hu : unicodeEscape rest <;> simp [hu, escDecoded]

/-- Decoding a whole blob of wrapped fragments. -/
theorem ue_escWrap_join (mids : List (List Char))
    (h : ∀ m ∈ mids, ∀ c ∈ m, c ≠ '\\') :
    unicodeEscape ((mids.map escWrap).flatten) = some ((mids.map escDecoded).flatten) := by
  induction mids with
  | nil => rfl
  | cons m mids ih =>
    simp only [List.map_cons, List.flatten_cons]
    rw [ue_escWrap_append m _ (h m (by simp)),
      ih (fun x hx => h x (by simp [hx]))]
    rfl

/-- The characters of a Python `"".join`. -/
theorem pyJoin_data (l : List String) :
    (pyJoin l).data = (l.map String.data).flatten := by
  induction l with
  | nil => rfl
  | cons s t ih => simp [pyJoin, ih]

/-- `set_special` for an index other than 66 appends exactly its special
fragment to the sequence list. -/
theorem set_special_seq (st : ColorTypeState) (n : Nat) (c : String) (h66 : n ≠ 66) :
    (set_special st n c).sequences = st.sequences ++ [spec_frag n c] := by
  simp only [set_special]
  split_ifs <;> simp_all

/-- `set_special` at 66 appends the special fragment and the indexed one. -/
theorem set_special_seq66 (st : ColorTypeState) (c : String) :
    (set_special st 66 c).sequences =
      st.sequences ++ [spec_frag 66 c] ++ [idx_frag 66 c] := by
  simp [set_special]

/-- A `set_color` call whose color converts appends exactly its indexed
fragment to the sequence list. -/
theorem set_color_some (st : ColorTypeState) (i : Nat) (c : String) (rgb : String)
    (h : hex_to_rgb c = some rgb) :
    ∃ st', set_color st i c = some st' ∧
      st'.sequences = st.sequences ++ [idx_frag i c] := by
  refine ⟨_, by simp only [set_color, h, Option.bind_eq_bind, Option.some_bind]; rfl, rfl⟩

/-- The loop succeeds on convertible colors and appends exactly the indexed
fragments in slot order. -/
theorem set_colors_loop_some (cs : List String) :
    ∀ (st : ColorTypeState) (i : Nat),
      (∀ c ∈ cs, ∃ v, hex_to_rgb c = some v) →
      ∃ st', set_colors_loop st i cs = some st' ∧
        st'.sequences = st.sequences ++ idxFrags i cs := by
  induction cs with
  | nil => intro st i _; exact ⟨st, rfl, by simp [idxFrags]⟩
  | cons c cs ih =>
    intro st i h
    obtain ⟨rgb, hrgb⟩ := h c (by simp)
    obtain ⟨st1, hst1, hseq1⟩ := set_color_some st i c rgb hrgb
    obtain ⟨st', hst', hseq'⟩ := ih st1 (i + 1) (fun d hd => h d (by simp [hd]))
    refine ⟨st', ?_, ?_⟩
    · simp [set_colors_loop, hst1, hst']
    · rw [hseq', hseq1, idxFrags]
      simp

/-- The numeric bounds of a hex digit character. -/
theorem isHexDig_bounds (c : Char) (h : isHexDig c = true) :
    (48 ≤ c.toNat ∧ c.toNat ≤ 57) ∨ (97 ≤ c.toNat ∧ c.toNat ≤ 102) ∨
    (65 ≤ c.toNat ∧ c.toNat ≤ 70) := by
  unfold isHexDig at h
  rw [Bool.or_eq_true, Bool.or_eq_true] at h
  rcases h with (h | h) | h <;> rw [Bool.and_eq_true] at h
  · exact Or.inl ⟨of_decide_eq_true h.1, of_decide_eq_true h.2⟩
  · exact Or.inr (Or.inl ⟨of_decide_eq_true h.1, of_decide_eq_true h.2⟩)
  · exact Or.inr (Or.inr ⟨of_decide_eq_true h.1, of_decide_eq_true h.2⟩)

/-- Hex digits are ASCII. -/
theorem isHexDig_ascii (c : Char) (h : isHexDig c = true) : c.toNat < 128 := by
  rcases isHexDig_bounds c h with ⟨_, h2⟩ | ⟨_, h2⟩ | ⟨_, h2⟩ <;> omega

/-- `hex_to_rgb` succeeds on a well-formed hex color. -/
theorem hex_to_rgb_of_hex (s : String) (h : isHexColor s = true) :
    ∃ v, hex_to_rgb s = some v := by
  obtain ⟨l, hd, hlen, hdig⟩ := hexColor_shape s h
  rcases l with _ | ⟨k1, l⟩; · simp at hlen
  rcases l with _ | ⟨k2, l⟩; · simp at hlen
  rcases l with _ | ⟨k3, l⟩; · simp at hlen
  rcases l with _ | ⟨k4, l⟩; · simp at hlen
  rcases l with _ | ⟨k5, l⟩; · simp at hlen
  rcases l with _ | ⟨k6, l⟩; · simp at hlen
  have hnil : l = [] := by
    have : l.length = 0 := by simpa using hlen
    simpa [List.length_eq_zero] using this
  subst hnil
  have f1 : isHexDig k1 = true := hdig k1 (by simp)
  have f2 : isHexDig k2 = true := hdig k2 (by simp)
  have f3 : isHexDig k3 = true := hdig k3 (by simp)
  have f4 : isHexDig k4 = true := hdig k4 (by simp)
  have f5 : isHexDig k5 = true := hdig k5 (by simp)
  have f6 : isHexDig k6 = true := hdig k6 (by simp)
  have n1s : ¬(k1 = ' ') := isHexDig_ne f1 (by decide)
  have n3s : ¬(k3 = ' ') := isHexDig_ne f3 (by decide)
  have n5s : ¬(k5 = ' ') := isHexDig_ne f5 (by decide)
  have n1h : ¬(k1 = '#') := isHexDig_ne f1 (by decide)
  have n6h : ¬(k6 = '#') := isHexDig_ne f6 (by decide)
  have hstrip : (pyStripHash s).data = [k1, k2, k3, k4, k5, k6] := by
    simp [pyStripHash, hd, List.dropWhile_cons, n1h, n6h]
  have hpairs : fromhexPairs [k1, k2, k3, k4, k5, k6] =
      some [16 * hexV k1 + hexV k2, 16 * hexV k3 + hexV k4, 16 * hexV k5 + hexV k6] := by
    simp [fromhexPairs, n1s, n3s, n5s, f1, f2, f3, f4, f5, f6]
  refine ⟨toString (16 * hexV k1 + hexV k2) ++ "," ++ toString (16 * hexV k3 + hexV k4) ++
    "," ++ toString (16 * hexV k5 + hexV k6), ?_⟩
  simp [hex_to_rgb, hstrip, hpairs]

/-- C3 amended, instantiated at the concrete session state and palette. -/
theorem c3_witness :
    ∃ st1 d1 st2 d2,
      export_colors c3State c3Palette = some (st1, d1) ∧
      export_colors st1 c3Palette = some (st2, d2) ∧
      d1.plainDoc = d2.plainDoc ∧ d1.shellDoc = d2.shellDoc ∧
      d1.scssDoc = d2.scssDoc ∧ d1.puttyDoc = d2.puttyDoc ∧
      d1.cssDoc ≠ d2.cssDoc ∧ d1.xrdbDoc ≠ d2.xrdbDoc :=
  c3_amended c3State c3Palette (by decide)

/-- Hex digits are not line breaks. -/
theorem isHexDig_not_lb (c : Char) (h : isHexDig c = true) : isLB c = false := by
  rcases isHexDig_bounds c h with ⟨h1, h2⟩ | ⟨h1, h2⟩ | ⟨h1, h2⟩ <;> (simp [isLB]; omega)

/-- Hex digits are sequence characters. -/
theorem isHexDig_seqChar (c : Char) (h : isHexDig c = true) : seqChar c :=
  ⟨isHexDig_ascii c h, isHexDig_ne h (by decide), isHexDig_not_lb c h⟩

/-- All characters of a well-formed hex color are sequence characters. -/
theorem hexColor_seqChars (s : String) (h : isHexColor s = true) :
    ∀ c ∈ s.data, seqChar c := by
  obtain ⟨l, hd, _, hdig⟩ := hexColor_shape s h
  rw [hd]
  intro c hc
  rcases List.mem_cons.1 hc with rfl | hc
  · exact ⟨by decide, by decide, by decide⟩
  · exact isHexDig_seqChar c (hdig c hc)

/-- Build a fragment-middle `SkipMid` certificate from its parts. -/
theorem skipMid_parts (d : Char) (pre : List Char) (s : String)
    (hd7 : d ≠ '7') (hdbr : d ≠ ']') (hpre : ∀ x ∈ pre, x ≠ ']')
    (hs : ∀ x ∈ s.data, x ≠ ']') :
    SkipMid (']' :: d :: (pre ++ s.data)) :=
  ⟨d, pre ++ s.data, rfl, hd7, hdbr, by
    intro x hx
    rcases List.mem_append.1 hx with h | h
    · exact hpre x h
    · exact hs x h⟩

/-- Sequence-character certificate for a fragment middle built from parts. -/
theorem seqChar_mid (d : Char) (pre : List Char) (s : String)
    (hd : seqChar d) (hpre : ∀ x ∈ pre, seqChar x) (hs : ∀ x ∈ s.data, seqChar x) :
    ∀ x ∈ ']' :: d :: (pre ++ s.data), seqChar x := by
  intro x hx
  rcases List.mem_cons.1 hx with rfl | hx
  · exact ⟨by decide, by decide, by decide⟩
  rcases List.mem_cons.1 hx with rfl | hx
  · exact hd
  rcases List.mem_append.1 hx with h | h
  · exact hpre x h
  · exact hs x h

/-- ASCII bound for a wrapped fragment whose middle has sequence
characters. -/
theorem escWrap_ascii (m : List Char) (hm : ∀ c ∈ m, seqChar c) :
    ∀ c ∈ escWrap m, c.toNat < 128 := by
  intro c hc
  simp only [escWrap, List.mem_cons, List.mem_append] at hc
  rcases hc with rfl | rfl | rfl | rfl | hc | (rfl | rfl | rfl | rfl | h0)
  · decide
  · decide
  · decide
  · decide
  · exact (hm c hc).1
  · decide
  · decide
  · decide
  · decide
  · simp at h0

/-- Every character of a decoded fragment whose middle has sequence
characters is itself non-break, non-backslash ASCII. -/
theorem escDecoded_seqChar (m : List Char) (hm : ∀ c ∈ m, seqChar c) :
    ∀ c ∈ escDecoded m, seqChar c := by
  intro c hc
  simp only [escDecoded, List.mem_cons, List.mem_append] at hc
  rcases hc with rfl | hc | (rfl | h0)
  · exact ⟨by decide, by decide, by decide⟩
  · exact hm c hc
  · exact ⟨by decide, by decide, by decide⟩
  · simp at h0

/-- Character facts for a whole decoded blob. -/
theorem flatten_escDecoded_seqChar (mids : List (List Char))
    (h : ∀ m ∈ mids, ∀ c ∈ m, seqChar c) :
    ∀ c ∈ (mids.map escDecoded).flatten, seqChar c := by
  intro c hc
  obtain ⟨lw, hlw, hcl⟩ := List.mem_flatten.1 hc
  obtain ⟨m, hmm, rfl⟩ := List.mem_map.1 hlw
  exact escDecoded_seqChar m (h m hmm) c hcl

/-- ASCII bound for a whole undecoded blob. -/
theorem flatten_escWrap_ascii (mids : List (List Char))
    (h : ∀ m ∈ mids, ∀ c ∈ m, seqChar c) :
    ∀ c ∈ (mids.map escWrap).flatten, c.toNat < 128 := by
  intro c hc
  obtain ⟨lw, hlw, hcl⟩ := List.mem_flatten.1 hc
  obtain ⟨m, hmm, rfl⟩ := List.mem_map.1 hlw
  exact escWrap_ascii m (h m hmm) c hcl

/-- Master computation for `send_sequences` from a fresh sequence
accumulator on a well-formed 16-slot palette: the call succeeds, and both
the undecoded fragment text (the SequenceBlob) and the decoded blob written
to the targets decompose into wrapped fragment middles — all of them
`SkipMid`s except, when `vte` is false, exactly one `]708;` middle in the
middle of the list carrying slot 0's color. -/
theorem send_sequences_master (st : ColorTypeState) (hst : st.sequences = [])
    (colors : List String) (hlen : colors.length = 16)
    (hhex : ∀ c ∈ colors, isHexColor c = true) (vte : Bool) :
    ∃ st8 blob c0 pres posts,
      colors[0]? = some c0 ∧
      send_sequences st colors vte = some (st8, blob) ∧
      (∀ m ∈ pres, SkipMid m) ∧ (∀ m ∈ posts, SkipMid m) ∧
      (∀ m ∈ pres, ∀ c ∈ m, seqChar c) ∧ (∀ m ∈ posts, ∀ c ∈ m, seqChar c) ∧
      (∀ c ∈ c0.data, seqChar c) ∧
      HitMid (']' :: '7' :: '0' :: '8' :: ';' :: c0.data) ∧
      ((vte = true →
        (pyJoin st8.sequences).data = ((pres ++ posts).map escWrap).flatten ∧
        blob.data = ((pres ++ posts).map escDecoded).flatten) ∧
       (vte = false →
        (pyJoin st8.sequences).data =
          ((pres ++ (']' :: '7' :: '0' :: '8' :: ';' :: c0.data) :: posts).map escWrap).flatten ∧
        blob.data =
          ((pres ++ (']' :: '7' :: '0' :: '8' :: ';' :: c0.data) :: posts).map escDecoded).flatten)) := by
  obtain ⟨a0, a1, a2, a3, a4, a5, a6, a7, a8, a9, b0, b1, b2, b3, b4, b5, t, rfl⟩ :=
    cons16_of_le_length colors (by omega)
  have ht : t = [] := by simpa using hlen
  subst ht
  have hx0 : isHexColor a0 = true := hhex a0 (by simp)
  have hx1 : isHexColor a1 = true := hhex a1 (by simp)
  have hx2 : isHexColor a2 = true := hhex a2 (by simp)
  have hx3 : isHexColor a3 = true := hhex a3 (by simp)
  have hx4 : isHexColor a4 = true := hhex a4 (by simp)
  have hx5 : isHexColor a5 = true := hhex a5 (by simp)
  have hx6 : isHexColor a6 = true := hhex a6 (by simp)
  have hx7 : isHexColor a7 = true := hhex a7 (by simp)
  have hx8 : isHexColor a8 = true := hhex a8 (by simp)
  have hx9 : isHexColor a9 = true := hhex a9 (by simp)
  have hx10 : isHexColor b0 = true := hhex b0 (by simp)
  have hx11 : isHexColor b1 = true := hhex b1 (by simp)
  have hx12 : isHexColor b2 = true := hhex b2 (by simp)
  have hx13 : isHexColor b3 = true := hhex b3 (by simp)
  have hx14 : isHexColor b4 = true := hhex b4 (by simp)
  have hx15 : isHexColor b5 = true := hhex b5 (by simp)
  obtain ⟨r0, hr0⟩ := hex_to_rgb_of_hex a0 hx0
  obtain ⟨r1, hr1⟩ := hex_to_rgb_of_hex a1 hx1
  obtain ⟨r2, hr2⟩ := hex_to_rgb_of_hex a2 hx2
  obtain ⟨r3, hr3⟩ := hex_to_rgb_of_hex a3 hx3
  obtain ⟨r4, hr4⟩ := hex_to_rgb_of_hex a4 hx4
  obtain ⟨r5, hr5⟩ := hex_to_rgb_of_hex a5 hx5
  obtain ⟨r6, hr6⟩ := hex_to_rgb_of_hex a6 hx6
  obtain ⟨r7, hr7⟩ := hex_to_rgb_of_hex a7 hx7
  obtain ⟨r8, hr8⟩ := hex_to_rgb_of_hex a8 hx8
  obtain ⟨r9, hr9⟩ := hex_to_rgb_of_hex a9 hx9
  obtain ⟨r10, hr10⟩ := hex_to_rgb_of_hex b0 hx10
  obtain ⟨r11, hr11⟩ := hex_to_rgb_of_hex b1 hx11
  obtain ⟨r12, hr12⟩ := hex_to_rgb_of_hex b2 hx12
  obtain ⟨r13, hr13⟩ := hex_to_rgb_of_hex b3 hx13
  obtain ⟨r14, hr14⟩ := hex_to_rgb_of_hex b4 hx14
  obtain ⟨r15, hr15⟩ := hex_to_rgb_of_hex b5 hx15
  have hs0 := hexColor_seqChars a0 hx0
  have hs1 := hexColor_seqChars a1 hx1
  have hs2 := hexColor_seqChars a2 hx2
  have hs3 := hexColor_seqChars a3 hx3
  have hs4 := hexColor_seqChars a4 hx4
  have hs5 := hexColor_seqChars a5 hx5
  have hs6 := hexColor_seqChars a6 hx6
  have hs7 := hexColor_seqChars a7 hx7
  have hs8 := hexColor_seqChars a8 hx8
  have hs9 := hexColor_seqChars a9 hx9
  have hs10 := hexColor_seqChars b0 hx10
  have hs11 := hexColor_seqChars b1 hx11
  have hs12 := hexColor_seqChars b2 hx12
  have hs13 := hexColor_seqChars b3 hx13
  have hs14 := hexColor_seqChars b4 hx14
  have hs15 := hexColor_seqChars b5 hx15
  have hn0 := hexColor_no_rbr a0 hx0
  have hn1 := hexColor_no_rbr a1 hx1
  have hn2 := hexColor_no_rbr a2 hx2
  have hn3 := hexColor_no_rbr a3 hx3
  have hn4 := hexColor_no_rbr a4 hx4
  have hn5 := hexColor_no_rbr a5 hx5
  have hn6 := hexColor_no_rbr a6 hx6
  have hn7 := hexColor_no_rbr a7 hx7
  have hn8 := hexColor_no_rbr a8 hx8
  have hn9 := hexColor_no_rbr a9 hx9
  have hn10 := hexColor_no_rbr b0 hx10
  have hn11 := hexColor_no_rbr b1 hx11
  have hn12 := hexColor_no_rbr b2 hx12
  have hn13 := hexColor_no_rbr b3 hx13
  have hn14 := hexColor_no_rbr b4 hx14
  have hn15 := hexColor_no_rbr b5 hx15
  obtain ⟨l0, hd0, hlen0, hdig0⟩ := hexColor_shape a0 hx0
  rcases l0 with _ | ⟨k1, l0⟩; · simp at hlen0
  rcases l0 with _ | ⟨k2, l0⟩; · simp at hlen0
  rcases l0 with _ | ⟨k3, l0⟩; · simp at hlen0
  rcases l0 with _ | ⟨k4, l0⟩; · simp at hlen0
  rcases l0 with _ | ⟨k5, l0⟩; · simp at hlen0
  rcases l0 with _ | ⟨k6, l0⟩; · simp at hlen0
  have hl0nil : l0 = [] := by simpa using hlen0
  subst hl0nil
  have hhit : HitMid (']' :: '7' :: '0' :: '8' :: ';' :: a0.data) := by
    rw [hd0]
    exact ⟨k1, k2, k3, k4, k5, k6, rfl,
      isHexDig_ne (hdig0 k1 (by simp)) (by decide),
      isHexDig_ne (hdig0 k2 (by simp)) (by decide),
      isHexDig_ne (hdig0 k3 (by simp)) (by decide),
      isHexDig_ne (hdig0 k4 (by simp)) (by decide),
      isHexDig_ne (hdig0 k5 (by simp)) (by decide),
      isHexDig_ne (hdig0 k6 (by simp)) (by decide)⟩
  have hrgball : ∀ c ∈ [a0, a1, a2, a3, a4, a5, a6, a7, a8, a9, b0, b1, b2, b3, b4, b5], ∃ v, hex_to_rgb c = some v := by
    intro c hc
    simp only [List.mem_cons, List.not_mem_nil, or_false] at hc
    rcases hc with rfl | rfl | rfl | rfl | rfl | rfl | rfl | rfl | rfl | rfl | rfl | rfl | rfl | rfl | rfl | rfl
    exacts [⟨r0, hr0⟩, ⟨r1, hr1⟩, ⟨r2, hr2⟩, ⟨r3, hr3⟩, ⟨r4, hr4⟩, ⟨r5, hr5⟩, ⟨r6, hr6⟩, ⟨r7, hr7⟩, ⟨r8, hr8⟩, ⟨r9, hr9⟩, ⟨r10, hr10⟩, ⟨r11, hr11⟩, ⟨r12, hr12⟩, ⟨r13, hr13⟩, ⟨r14, hr14⟩, ⟨r15, hr15⟩]
  have hpresSkip : ∀ m ∈
      [']' :: '1' :: (['0', ';'] ++ b5.data),
       ']' :: '1' :: (['1', ';'] ++ a0.data),
       ']' :: '1' :: (['2', ';'] ++ b5.data),
       ']' :: '1' :: (['3', ';'] ++ b5.data),
       ']' :: '1' :: (['4', ';'] ++ a0.data)], SkipMid m := by
    intro m hm
    simp only [List.mem_cons, List.not_mem_nil, or_false] at hm
    rcases hm with rfl | rfl | rfl | rfl | rfl
    exacts [skipMid_parts '1' ['0', ';'] b5 (by decide) (by decide) (by decide) hn15,
      skipMid_parts '1' ['1', ';'] a0 (by decide) (by decide) (by decide) hn0,
      skipMid_parts '1' ['2', ';'] b5 (by decide) (by decide) (by decide) hn15,
      skipMid_parts '1' ['3', ';'] b5 (by decide) (by decide) (by decide) hn15,
      skipMid_parts '1' ['4', ';'] a0 (by decide) (by decide) (by decide) hn0]
  have hpostSkip : ∀ m ∈
      [']' :: '4' :: ([';', '0', ';'] ++ a0.data),
       ']' :: '4' :: ([';', '1', ';'] ++ a1.data),
       ']' :: '4' :: ([';', '2', ';'] ++ a2.data),
       ']' :: '4' :: ([';', '3', ';'] ++ a3.data),
       ']' :: '4' :: ([';', '4', ';'] ++ a4.data),
       ']' :: '4' :: ([';', '5', ';'] ++ a5.data),
       ']' :: '4' :: ([';', '6', ';'] ++ a6.data),
       ']' :: '4' :: ([';', '7', ';'] ++ a7.data),
       ']' :: '4' :: ([';', '8', ';'] ++ a8.data),
       ']' :: '4' :: ([';', '9', ';'] ++ a9.data),
       ']' :: '4' :: ([';', '1', '0', ';'] ++ b0.data),
       ']' :: '4' :: ([';', '1', '1', ';'] ++ b1.data),
       ']' :: '4' :: ([';', '1', '2', ';'] ++ b2.data),
       ']' :: '4' :: ([';', '1', '3', ';'] ++ b3.data),
       ']' :: '4' :: ([';', '1', '4', ';'] ++ b4.data),
       ']' :: '4' :: ([';', '1', '5', ';'] ++ b5.data),
       ']' :: '6' :: (['6', ';'] ++ a0.data),
       ']' :: '4' :: ([';', '6', '6', ';'] ++ a0.data)], SkipMid m := by
    intro m hm
    simp only [List.mem_cons, List.not_mem_nil, or_false] at hm
    rcases hm with rfl | rfl | rfl | rfl | rfl | rfl | rfl | rfl | rfl | rfl | rfl | rfl | rfl | rfl | rfl | rfl | rfl | rfl
    exacts [skipMid_parts '4' [';', '0', ';'] a0 (by decide) (by decide) (by decide) hn0,
      skipMid_parts '4' [';', '1', ';'] a1 (by decide) (by decide) (by decide) hn1,
      skipMid_parts '4' [';', '2', ';'] a2 (by decide) (by decide) (by decide) hn2,
      skipMid_parts '4' [';', '3', ';'] a3 (by decide) (by decide) (by decide) hn3,
      skipMid_parts '4' [';', '4', ';'] a4 (by decide) (by decide) (by decide) hn4,
      skipMid_parts '4' [';', '5', ';'] a5 (by decide) (by decide) (by decide) hn5,
      skipMid_parts '4' [';', '6', ';'] a6 (by decide) (by decide) (by decide) hn6,
      skipMid_parts '4' [';', '7', ';'] a7 (by decide) (by decide) (by decide) hn7,
      skipMid_parts '4' [';', '8', ';'] a8 (by decide) (by decide) (by decide) hn8,
      skipMid_parts '4' [';', '9', ';'] a9 (by decide) (by decide) (by decide) hn9,
      skipMid_parts '4' [';', '1', '0', ';'] b0 (by decide) (by decide) (by decide) hn10,
      skipMid_parts '4' [';', '1', '1', ';'] b1 (by decide) (by decide) (by decide) hn11,
      skipMid_parts '4' [';', '1', '2', ';'] b2 (by decide) (by decide) (by decide) hn12,
      skipMid_parts '4' [';', '1', '3', ';'] b3 (by decide) (by decide) (by decide) hn13,
      skipMid_parts '4' [';', '1', '4', ';'] b4 (by decide) (by decide) (by decide) hn14,
      skipMid_parts '4' [';', '1', '5', ';'] b5 (by decide) (by decide) (by decide) hn15,
      skipMid_parts '6' ['6', ';'] a0 (by decide) (by decide) (by decide) hn0,
      skipMid_parts '4' [';', '6', '6', ';'] a0 (by decide) (by decide) (by decide) hn0]
  have hpresChar : ∀ m ∈
      [']' :: '1' :: (['0', ';'] ++ b5.data),
       ']' :: '1' :: (['1', ';'] ++ a0.data),
       ']' :: '1' :: (['2', ';'] ++ b5.data),
       ']' :: '1' :: (['3', ';'] ++ b5.data),
       ']' :: '1' :: (['4', ';'] ++ a0.data)], ∀ c ∈ m, seqChar c := by
    intro m hm
    simp only [List.mem_cons, List.not_mem_nil, or_false] at hm
    rcases hm with rfl | rfl | rfl | rfl | rfl
    exacts [seqChar_mid '1' ['0', ';'] b5 (by decide) (by decide) hs15,
      seqChar_mid '1' ['1', ';'] a0 (by decide) (by decide) hs0,
      seqChar_mid '1' ['2', ';'] b5 (by decide) (by decide) hs15,
      seqChar_mid '1' ['3', ';'] b5 (by decide) (by decide) hs15,
      seqChar_mid '1' ['4', ';'] a0 (by decide) (by decide) hs0]
  have hpostChar : ∀ m ∈
      [']' :: '4' :: ([';', '0', ';'] ++ a0.data),
       ']' :: '4' :: ([';', '1', ';'] ++ a1.data),
       ']' :: '4' :: ([';', '2', ';'] ++ a2.data),
       ']' :: '4' :: ([';', '3', ';'] ++ a3.data),
       ']' :: '4' :: ([';', '4', ';'] ++ a4.data),
       ']' :: '4' :: ([';', '5', ';'] ++ a5.data),
       ']' :: '4' :: ([';', '6', ';'] ++ a6.data),
       ']' :: '4' :: ([';', '7', ';'] ++ a7.data),
       ']' :: '4' :: ([';', '8', ';'] ++ a8.data),
       ']' :: '4' :: ([';', '9', ';'] ++ a9.data),
       ']' :: '4' :: ([';', '1', '0', ';'] ++ b0.data),
       ']' :: '4' :: ([';', '1', '1', ';'] ++ b1.data),
       ']' :: '4' :: ([';', '1', '2', ';'] ++ b2.data),
       ']' :: '4' :: ([';', '1', '3', ';'] ++ b3.data),
       ']' :: '4' :: ([';', '1', '4', ';'] ++ b4.data),
       ']' :: '4' :: ([';', '1', '5', ';'] ++ b5.data),
       ']' :: '6' :: (['6', ';'] ++ a0.data),
       ']' :: '4' :: ([';', '6', '6', ';'] ++ a0.data)], ∀ c ∈ m, seqChar c := by
    intro m hm
    simp only [List.mem_cons, List.not_mem_nil, or_false] at hm
    rcases hm with rfl | rfl | rfl | rfl | rfl | rfl | rfl | rfl | rfl | rfl | rfl | rfl | rfl | rfl | rfl | rfl | rfl | rfl
    exacts [seqChar_mid '4' [';', '0', ';'] a0 (by decide) (by decide) hs0,
      seqChar_mid '4' [';', '1', ';'] a1 (by decide) (by decide) hs1,
      seqChar_mid '4' [';', '2', ';'] a2 (by decide) (by decide) hs2,
      seqChar_mid '4' [';', '3', ';'] a3 (by decide) (by decide) hs3,
      seqChar_mid '4' [';', '4', ';'] a4 (by decide) (by decide) hs4,
      seqChar_mid '4' [';', '5', ';'] a5 (by decide) (by decide) hs5,
      seqChar_mid '4' [';', '6', ';'] a6 (by decide) (by decide) hs6,
      seqChar_mid '4' [';', '7', ';'] a7 (by decide) (by decide) hs7,
      seqChar_mid '4' [';', '8', ';'] a8 (by decide) (by decide) hs8,
      seqChar_mid '4' [';', '9', ';'] a9 (by decide) (by decide) hs9,
      seqChar_mid '4' [';', '1', '0', ';'] b0 (by decide) (by decide) hs10,
      seqChar_mid '4' [';', '1', '1', ';'] b1 (by decide) (by decide) hs11,
      seqChar_mid '4' [';', '1', '2', ';'] b2 (by decide) (by decide) hs12,
      seqChar_mid '4' [';', '1', '3', ';'] b3 (by decide) (by decide) hs13,
      seqChar_mid '4' [';', '1', '4', ';'] b4 (by decide) (by decide) hs14,
      seqChar_mid '4' [';', '1', '5', ';'] b5 (by decide) (by decide) hs15,
      seqChar_mid '6' ['6', ';'] a0 (by decide) (by decide) hs0,
      seqChar_mid '4' [';', '6', '6', ';'] a0 (by decide) (by decide) hs0]
  have hhitChar : ∀ c ∈ (']' :: '7' :: '0' :: '8' :: ';' :: a0.data), seqChar c :=
    seqChar_mid '7' ['0', '8', ';'] a0 (by decide) (by decide) hs0
  cases vte with
  | false =>
    have hseq6 : ((set_special (set_special (set_special (set_special (set_special (set_special st 10 b5) 11 a0) 12 b5) 13 b5) 14 a0) 708 a0)).sequences =
        [spec_frag 10 b5, spec_frag 11 a0, spec_frag 12 b5, spec_frag 13 b5,
         spec_frag 14 a0, spec_frag 708 a0] := by
      rw [set_special_seq _ 708 _ (by decide), set_special_seq _ 14 _ (by decide),
          set_special_seq _ 13 _ (by decide), set_special_seq _ 12 _ (by decide),
          set_special_seq _ 11 _ (by decide), set_special_seq _ 10 _ (by decide), hst]
      rfl
    obtain ⟨st7, hst7, hseq7⟩ := set_colors_loop_some [a0, a1, a2, a3, a4, a5, a6, a7, a8, a9, b0, b1, b2, b3, b4, b5] (set_special (set_special (set_special (set_special (set_special (set_special st 10 b5) 11 a0) 12 b5) 13 b5) 14 a0) 708 a0) 0 hrgball
    have hseq8 : (set_special st7 66 a0).sequences =
      [spec_frag 10 b5,
       spec_frag 11 a0,
       spec_frag 12 b5,
       spec_frag 13 b5,
       spec_frag 14 a0,
       spec_frag 708 a0,
       idx_frag 0 a0,
       idx_frag 1 a1,
       idx_frag 2 a2,
       idx_frag 3 a3,
       idx_frag 4 a4,
       idx_frag 5 a5,
       idx_frag 6 a6,
       idx_frag 7 a7,
       idx_frag 8 a8,
       idx_frag 9 a9,
       idx_frag 10 b0,
       idx_frag 11 b1,
       idx_frag 12 b2,
       idx_frag 13 b3,
       idx_frag 14 b4,
       idx_frag 15 b5,
       spec_frag 66 a0,
       idx_frag 66 a0] := by
      rw [set_special_seq66, hseq7, hseq6]
      simp [idxFrags]
    have hmidchars : ∀ m ∈ [']' :: '1' :: (['0', ';'] ++ b5.data),
       ']' :: '1' :: (['1', ';'] ++ a0.data),
       ']' :: '1' :: (['2', ';'] ++ b5.data),
       ']' :: '1' :: (['3', ';'] ++ b5.data),
       ']' :: '1' :: (['4', ';'] ++ a0.data)] ++ (']' :: '7' :: '0' :: '8' :: ';' :: a0.data) ::
      [']' :: '4' :: ([';', '0', ';'] ++ a0.data),
       ']' :: '4' :: ([';', '1', ';'] ++ a1.data),
       ']' :: '4' :: ([';', '2', ';'] ++ a2.data),
       ']' :: '4' :: ([';', '3', ';'] ++ a3.data),
       ']' :: '4' :: ([';', '4', ';'] ++ a4.data),
       ']' :: '4' :: ([';', '5', ';'] ++ a5.data),
       ']' :: '4' :: ([';', '6', ';'] ++ a6.data),
       ']' :: '4' :: ([';', '7', ';'] ++ a7.data),
       ']' :: '4' :: ([';', '8', ';'] ++ a8.data),
       ']' :: '4' :: ([';', '9', ';'] ++ a9.data),
       ']' :: '4' :: ([';', '1', '0', ';'] ++ b0.data),
       ']' :: '4' :: ([';', '1', '1', ';'] ++ b1.data),
       ']' :: '4' :: ([';', '1', '2', ';'] ++ b2.data),
       ']' :: '4' :: ([';', '1', '3', ';'] ++ b3.data),
       ']' :: '4' :: ([';', '1', '4', ';'] ++ b4.data),
       ']' :: '4' :: ([';', '1', '5', ';'] ++ b5.data),
       ']' :: '6' :: (['6', ';'] ++ a0.data),
       ']' :: '4' :: ([';', '6', '6', ';'] ++ a0.data)], ∀ c ∈ m, seqChar c := by
      intro m hm
      rcases List.mem_append.1 hm with hmp | hm2
      · exact hpresChar m hmp
      · rcases List.mem_cons.1 hm2 with rfl | hmq
        · exact hhitChar
        · exact hpostChar m hmq
    have hnoBS : ∀ m ∈ [']' :: '1' :: (['0', ';'] ++ b5.data),
       ']' :: '1' :: (['1', ';'] ++ a0.data),
       ']' :: '1' :: (['2', ';'] ++ b5.data),
       ']' :: '1' :: (['3', ';'] ++ b5.data),
       ']' :: '1' :: (['4', ';'] ++ a0.data)] ++ (']' :: '7' :: '0' :: '8' :: ';' :: a0.data) ::
      [']' :: '4' :: ([';', '0', ';'] ++ a0.data),
       ']' :: '4' :: ([';', '1', ';'] ++ a1.data),
       ']' :: '4' :: ([';', '2', ';'] ++ a2.data),
       ']' :: '4' :: ([';', '3', ';'] ++ a3.data),
       ']' :: '4' :: ([';', '4', ';'] ++ a4.data),
       ']' :: '4' :: ([';', '5', ';'] ++ a5.data),
       ']' :: '4' :: ([';', '6', ';'] ++ a6.data),
       ']' :: '4' :: ([';', '7', ';'] ++ a7.data),
       ']' :: '4' :: ([';', '8', ';'] ++ a8.data),
       ']' :: '4' :: ([';', '9', ';'] ++ a9.data),
       ']' :: '4' :: ([';', '1', '0', ';'] ++ b0.data),
       ']' :: '4' :: ([';', '1', '1', ';'] ++ b1.data),
       ']' :: '4' :: ([';', '1', '2', ';'] ++ b2.data),
       ']' :: '4' :: ([';', '1', '3', ';'] ++ b3.data),
       ']' :: '4' :: ([';', '1', '4', ';'] ++ b4.data),
       ']' :: '4' :: ([';', '1', '5', ';'] ++ b5.data),
       ']' :: '6' :: (['6', ';'] ++ a0.data),
       ']' :: '4' :: ([';', '6', '6', ';'] ++ a0.data)], ∀ c ∈ m, c ≠ '\\' :=
      fun m hm c hc => (hmidchars m hm c hc).2.1
    have hmapW : ([spec_frag 10 b5,
       spec_frag 11 a0,
       spec_frag 12 b5,
       spec_frag 13 b5,
       spec_frag 14 a0,
       spec_frag 708 a0,
       idx_frag 0 a0,
       idx_frag 1 a1,
       idx_frag 2 a2,
       idx_frag 3 a3,
       idx_frag 4 a4,
       idx_frag 5 a5,
       idx_frag 6 a6,
       idx_frag 7 a7,
       idx_frag 8 a8,
       idx_frag 9 a9,
       idx_frag 10 b0,
       idx_frag 11 b1,
       idx_frag 12 b2,
       idx_frag 13 b3,
       idx_frag 14 b4,
       idx_frag 15 b5,
       spec_frag 66 a0,
       idx_frag 66 a0]).map String.data = ([']' :: '1' :: (['0', ';'] ++ b5.data),
       ']' :: '1' :: (['1', ';'] ++ a0.data),
       ']' :: '1' :: (['2', ';'] ++ b5.data),
       ']' :: '1' :: (['3', ';'] ++ b5.data),
       ']' :: '1' :: (['4', ';'] ++ a0.data)] ++ (']' :: '7' :: '0' :: '8' :: ';' :: a0.data) ::
      [']' :: '4' :: ([';', '0', ';'] ++ a0.data),
       ']' :: '4' :: ([';', '1', ';'] ++ a1.data),
       ']' :: '4' :: ([';', '2', ';'] ++ a2.data),
       ']' :: '4' :: ([';', '3', ';'] ++ a3.data),
       ']' :: '4' :: ([';', '4', ';'] ++ a4.data),
       ']' :: '4' :: ([';', '5', ';'] ++ a5.data),
       ']' :: '4' :: ([';', '6', ';'] ++ a6.data),
       ']' :: '4' :: ([';', '7', ';'] ++ a7.data),
       ']' :: '4' :: ([';', '8', ';'] ++ a8.data),
       ']' :: '4' :: ([';', '9', ';'] ++ a9.data),
       ']' :: '4' :: ([';', '1', '0', ';'] ++ b0.data),
       ']' :: '4' :: ([';', '1', '1', ';'] ++ b1.data),
       ']' :: '4' :: ([';', '1', '2', ';'] ++ b2.data),
       ']' :: '4' :: ([';', '1', '3', ';'] ++ b3.data),
       ']' :: '4' :: ([';', '1', '4', ';'] ++ b4.data),
       ']' :: '4' :: ([';', '1', '5', ';'] ++ b5.data),
       ']' :: '6' :: (['6', ';'] ++ a0.data),
       ']' :: '4' :: ([';', '6', '6', ';'] ++ a0.data)]).map escWrap := rfl
    have hdecode := ue_escWrap_join ([']' :: '1' :: (['0', ';'] ++ b5.data),
       ']' :: '1' :: (['1', ';'] ++ a0.data),
       ']' :: '1' :: (['2', ';'] ++ b5.data),
       ']' :: '1' :: (['3', ';'] ++ b5.data),
       ']' :: '1' :: (['4', ';'] ++ a0.data)] ++ (']' :: '7' :: '0' :: '8' :: ';' :: a0.data) ::
      [']' :: '4' :: ([';', '0', ';'] ++ a0.data),
       ']' :: '4' :: ([';', '1', ';'] ++ a1.data),
       ']' :: '4' :: ([';', '2', ';'] ++ a2.data),
       ']' :: '4' :: ([';', '3', ';'] ++ a3.data),
       ']' :: '4' :: ([';', '4', ';'] ++ a4.data),
       ']' :: '4' :: ([';', '5', ';'] ++ a5.data),
       ']' :: '4' :: ([';', '6', ';'] ++ a6.data),
       ']' :: '4' :: ([';', '7', ';'] ++ a7.data),
       ']' :: '4' :: ([';', '8', ';'] ++ a8.data),
       ']' :: '4' :: ([';', '9', ';'] ++ a9.data),
       ']' :: '4' :: ([';', '1', '0', ';'] ++ b0.data),
       ']' :: '4' :: ([';', '1', '1', ';'] ++ b1.data),
       ']' :: '4' :: ([';', '1', '2', ';'] ++ b2.data),
       ']' :: '4' :: ([';', '1', '3', ';'] ++ b3.data),
       ']' :: '4' :: ([';', '1', '4', ';'] ++ b4.data),
       ']' :: '4' :: ([';', '1', '5', ';'] ++ b5.data),
       ']' :: '6' :: (['6', ';'] ++ a0.data),
       ']' :: '4' :: ([';', '6', '6', ';'] ++ a0.data)]) hnoBS
    have hasciiS : ∀ c ∈ (pyJoin ([spec_frag 10 b5,
       spec_frag 11 a0,
       spec_frag 12 b5,
       spec_frag 13 b5,
       spec_frag 14 a0,
       spec_frag 708 a0,
       idx_frag 0 a0,
       idx_frag 1 a1,
       idx_frag 2 a2,
       idx_frag 3 a3,
       idx_frag 4 a4,
       idx_frag 5 a5,
       idx_frag 6 a6,
       idx_frag 7 a7,
       idx_frag 8 a8,
       idx_frag 9 a9,
       idx_frag 10 b0,
       idx_frag 11 b1,
       idx_frag 12 b2,
       idx_frag 13 b3,
       idx_frag 14 b4,
       idx_frag 15 b5,
       spec_frag 66 a0,
       idx_frag 66 a0])).data, c.toNat < 128 := by
      rw [pyJoin_data, hmapW]
      exact flatten_escWrap_ascii _ hmidchars
    have hfe : fix_escape (pyJoin ([spec_frag 10 b5,
       spec_frag 11 a0,
       spec_frag 12 b5,
       spec_frag 13 b5,
       spec_frag 14 a0,
       spec_frag 708 a0,
       idx_frag 0 a0,
       idx_frag 1 a1,
       idx_frag 2 a2,
       idx_frag 3 a3,
       idx_frag 4 a4,
       idx_frag 5 a5,
       idx_frag 6 a6,
       idx_frag 7 a7,
       idx_frag 8 a8,
       idx_frag 9 a9,
       idx_frag 10 b0,
       idx_frag 11 b1,
       idx_frag 12 b2,
       idx_frag 13 b3,
       idx_frag 14 b4,
       idx_frag 15 b5,
       spec_frag 66 a0,
       idx_frag 66 a0])) =
        some (String.mk ((([']' :: '1' :: (['0', ';'] ++ b5.data),
       ']' :: '1' :: (['1', ';'] ++ a0.data),
       ']' :: '1' :: (['2', ';'] ++ b5.data),
       ']' :: '1' :: (['3', ';'] ++ b5.data),
       ']' :: '1' :: (['4', ';'] ++ a0.data)] ++ (']' :: '7' :: '0' :: '8' :: ';' :: a0.data) ::
      [']' :: '4' :: ([';', '0', ';'] ++ a0.data),
       ']' :: '4' :: ([';', '1', ';'] ++ a1.data),
       ']' :: '4' :: ([';', '2', ';'] ++ a2.data),
       ']' :: '4' :: ([';', '3', ';'] ++ a3.data),
       ']' :: '4' :: ([';', '4', ';'] ++ a4.data),
       ']' :: '4' :: ([';', '5', ';'] ++ a5.data),
       ']' :: '4' :: ([';', '6', ';'] ++ a6.data),
       ']' :: '4' :: ([';', '7', ';'] ++ a7.data),
       ']' :: '4' :: ([';', '8', ';'] ++ a8.data),
       ']' :: '4' :: ([';', '9', ';'] ++ a9.data),
       ']' :: '4' :: ([';', '1', '0', ';'] ++ b0.data),
       ']' :: '4' :: ([';', '1', '1', ';'] ++ b1.data),
       ']' :: '4' :: ([';', '1', '2', ';'] ++ b2.data),
       ']' :: '4' :: ([';', '1', '3', ';'] ++ b3.data),
       ']' :: '4' :: ([';', '1', '4', ';'] ++ b4.data),
       ']' :: '4' :: ([';', '1', '5', ';'] ++ b5.data),
       ']' :: '6' :: (['6', ';'] ++ a0.data),
       ']' :: '4' :: ([';', '6', '6', ';'] ++ a0.data)]).map escDecoded).flatten)) := by
      rw [fix_escape_ascii _ hasciiS, pyJoin_data, hmapW, hdecode]
      rfl
    have hstep : send_sequences st [a0, a1, a2, a3, a4, a5, a6, a7, a8, a9, b0, b1, b2, b3, b4, b5] false =
        (set_colors_loop (set_special (set_special (set_special (set_special (set_special (set_special st 10 b5) 11 a0) 12 b5) 13 b5) 14 a0) 708 a0) 0 [a0, a1, a2, a3, a4, a5, a6, a7, a8, a9, b0, b1, b2, b3, b4, b5]).bind (fun st7x =>
          (fix_escape (pyJoin (set_special st7x 66 a0).sequences)).bind (fun blob =>
            some (set_special st7x 66 a0, blob))) := rfl
    have hsend : send_sequences st [a0, a1, a2, a3, a4, a5, a6, a7, a8, a9, b0, b1, b2, b3, b4, b5] false =
        some (set_special st7 66 a0, String.mk ((([']' :: '1' :: (['0', ';'] ++ b5.data),
       ']' :: '1' :: (['1', ';'] ++ a0.data),
       ']' :: '1' :: (['2', ';'] ++ b5.data),
       ']' :: '1' :: (['3', ';'] ++ b5.data),
       ']' :: '1' :: (['4', ';'] ++ a0.data)] ++ (']' :: '7' :: '0' :: '8' :: ';' :: a0.data) ::
      [']' :: '4' :: ([';', '0', ';'] ++ a0.data),
       ']' :: '4' :: ([';', '1', ';'] ++ a1.data),
       ']' :: '4' :: ([';', '2', ';'] ++ a2.data),
       ']' :: '4' :: ([';', '3', ';'] ++ a3.data),
       ']' :: '4' :: ([';', '4', ';'] ++ a4.data),
       ']' :: '4' :: ([';', '5', ';'] ++ a5.data),
       ']' :: '4' :: ([';', '6', ';'] ++ a6.data),
       ']' :: '4' :: ([';', '7', ';'] ++ a7.data),
       ']' :: '4' :: ([';', '8', ';'] ++ a8.data),
       ']' :: '4' :: ([';', '9', ';'] ++ a9.data),
       ']' :: '4' :: ([';', '1', '0', ';'] ++ b0.data),
       ']' :: '4' :: ([';', '1', '1', ';'] ++ b1.data),
       ']' :: '4' :: ([';', '1', '2', ';'] ++ b2.data),
       ']' :: '4' :: ([';', '1', '3', ';'] ++ b3.data),
       ']' :: '4' :: ([';', '1', '4', ';'] ++ b4.data),
       ']' :: '4' :: ([';', '1', '5', ';'] ++ b5.data),
       ']' :: '6' :: (['6', ';'] ++ a0.data),
       ']' :: '4' :: ([';', '6', '6', ';'] ++ a0.data)]).map escDecoded).flatten)) := by
      rw [hstep, hst7]
      simp only [Option.some_bind]
      rw [hseq8, hfe]
      simp only [Option.some_bind]
    exact ⟨set_special st7 66 a0, String.mk ((([']' :: '1' :: (['0', ';'] ++ b5.data),
       ']' :: '1' :: (['1', ';'] ++ a0.data),
       ']' :: '1' :: (['2', ';'] ++ b5.data),
       ']' :: '1' :: (['3', ';'] ++ b5.data),
       ']' :: '1' :: (['4', ';'] ++ a0.data)] ++ (']' :: '7' :: '0' :: '8' :: ';' :: a0.data) ::
      [']' :: '4' :: ([';', '0', ';'] ++ a0.data),
       ']' :: '4' :: ([';', '1', ';'] ++ a1.data),
       ']' :: '4' :: ([';', '2', ';'] ++ a2.data),
       ']' :: '4' :: ([';', '3', ';'] ++ a3.data),
       ']' :: '4' :: ([';', '4', ';'] ++ a4.data),
       ']' :: '4' :: ([';', '5', ';'] ++ a5.data),
       ']' :: '4' :: ([';', '6', ';'] ++ a6.data),
       ']' :: '4' :: ([';', '7', ';'] ++ a7.data),
       ']' :: '4' :: ([';', '8', ';'] ++ a8.data),
       ']' :: '4' :: ([';', '9', ';'] ++ a9.data),
       ']' :: '4' :: ([';', '1', '0', ';'] ++ b0.data),
       ']' :: '4' :: ([';', '1', '1', ';'] ++ b1.data),
       ']' :: '4' :: ([';', '1', '2', ';'] ++ b2.data),
       ']' :: '4' :: ([';', '1', '3', ';'] ++ b3.data),
       ']' :: '4' :: ([';', '1', '4', ';'] ++ b4.data),
       ']' :: '4' :: ([';', '1', '5', ';'] ++ b5.data),
       ']' :: '6' :: (['6', ';'] ++ a0.data),
       ']' :: '4' :: ([';', '6', '6', ';'] ++ a0.data)]).map escDecoded).flatten), a0,
      [']' :: '1' :: (['0', ';'] ++ b5.data),
       ']' :: '1' :: (['1', ';'] ++ a0.data),
       ']' :: '1' :: (['2', ';'] ++ b5.data),
       ']' :: '1' :: (['3', ';'] ++ b5.data),
       ']' :: '1' :: (['4', ';'] ++ a0.data)],
      [']' :: '4' :: ([';', '0', ';'] ++ a0.data),
       ']' :: '4' :: ([';', '1', ';'] ++ a1.data),
       ']' :: '4' :: ([';', '2', ';'] ++ a2.data),
       ']' :: '4' :: ([';', '3', ';'] ++ a3.data),
       ']' :: '4' :: ([';', '4', ';'] ++ a4.data),
       ']' :: '4' :: ([';', '5', ';'] ++ a5.data),
       ']' :: '4' :: ([';', '6', ';'] ++ a6.data),
       ']' :: '4' :: ([';', '7', ';'] ++ a7.data),
       ']' :: '4' :: ([';', '8', ';'] ++ a8.data),
       ']' :: '4' :: ([';', '9', ';'] ++ a9.data),
       ']' :: '4' :: ([';', '1', '0', ';'] ++ b0.data),
       ']' :: '4' :: ([';', '1', '1', ';'] ++ b1.data),
       ']' :: '4' :: ([';', '1', '2', ';'] ++ b2.data),
       ']' :: '4' :: ([';', '1', '3', ';'] ++ b3.data),
       ']' :: '4' :: ([';', '1', '4', ';'] ++ b4.data),
       ']' :: '4' :: ([';', '1', '5', ';'] ++ b5.data),
       ']' :: '6' :: (['6', ';'] ++ a0.data),
       ']' :: '4' :: ([';', '6', '6', ';'] ++ a0.data)], rfl, hsend, hpresSkip, hpostSkip, hpresChar, hpostChar, hs0, hhit,
      fun hv => absurd hv (by decide),
      fun _ => ⟨by rw [hseq8, pyJoin_data, hmapW], rfl⟩⟩
  | true =>
    have hseq6 : ((set_special (set_special (set_special (set_special (set_special st 10 b5) 11 a0) 12 b5) 13 b5) 14 a0)).sequences =
        [spec_frag 10 b5, spec_frag 11 a0, spec_frag 12 b5, spec_frag 13 b5,
         spec_frag 14 a0] := by
      rw [set_special_seq _ 14 _ (by decide),
          set_special_seq _ 13 _ (by decide), set_special_seq _ 12 _ (by decide),
          set_special_seq _ 11 _ (by decide), set_special_seq _ 10 _ (by decide), hst]
      rfl
    obtain ⟨st7, hst7, hseq7⟩ := set_colors_loop_some [a0, a1, a2, a3, a4, a5, a6, a7, a8, a9, b0, b1, b2, b3, b4, b5] (set_special (set_special (set_special (set_special (set_special st 10 b5) 11 a0) 12 b5) 13 b5) 14 a0) 0 hrgball
    have hseq8 : (set_special st7 66 a0).sequences =
      [spec_frag 10 b5,
       spec_frag 11 a0,
       spec_frag 12 b5,
       spec_frag 13 b5,
       spec_frag 14 a0,
       idx_frag 0 a0,
       idx_frag 1 a1,
       idx_frag 2 a2,
       idx_frag 3 a3,
       idx_frag 4 a4,
       idx_frag 5 a5,
       idx_frag 6 a6,
       idx_frag 7 a7,
       idx_frag 8 a8,
       idx_frag 9 a9,
       idx_frag 10 b0,
       idx_frag 11 b1,
       idx_frag 12 b2,
       idx_frag 13 b3,
       idx_frag 14 b4,
       idx_frag 15 b5,
       spec_frag 66 a0,
       idx_frag 66 a0] := by
      rw [set_special_seq66, hseq7, hseq6]
      simp [idxFrags]
    have hmidchars : ∀ m ∈ [']' :: '1' :: (['0', ';'] ++ b5.data),
       ']' :: '1' :: (['1', ';'] ++ a0.data),
       ']' :: '1' :: (['2', ';'] ++ b5.data),
       ']' :: '1' :: (['3', ';'] ++ b5.data),
       ']' :: '1' :: (['4', ';'] ++ a0.data)] ++
      [']' :: '4' :: ([';', '0', ';'] ++ a0.data),
       ']' :: '4' :: ([';', '1', ';'] ++ a1.data),
       ']' :: '4' :: ([';', '2', ';'] ++ a2.data),
       ']' :: '4' :: ([';', '3', ';'] ++ a3.data),
       ']' :: '4' :: ([';', '4', ';'] ++ a4.data),
       ']' :: '4' :: ([';', '5', ';'] ++ a5.data),
       ']' :: '4' :: ([';', '6', ';'] ++ a6.data),
       ']' :: '4' :: ([';', '7', ';'] ++ a7.data),
       ']' :: '4' :: ([';', '8', ';'] ++ a8.data),
       ']' :: '4' :: ([';', '9', ';'] ++ a9.data),
       ']' :: '4' :: ([';', '1', '0', ';'] ++ b0.data),
       ']' :: '4' :: ([';', '1', '1', ';'] ++ b1.data),
       ']' :: '4' :: ([';', '1', '2', ';'] ++ b2.data),
       ']' :: '4' :: ([';', '1', '3', ';'] ++ b3.data),
       ']' :: '4' :: ([';', '1', '4', ';'] ++ b4.data),
       ']' :: '4' :: ([';', '1', '5', ';'] ++ b5.data),
       ']' :: '6' :: (['6', ';'] ++ a0.data),
       ']' :: '4' :: ([';', '6', '6', ';'] ++ a0.data)], ∀ c ∈ m, seqChar c := by
      intro m hm
      rcases List.mem_append.1 hm with hmp | hmq
      · exact hpresChar m hmp
      · exact hpostChar m hmq
    have hnoBS : ∀ m ∈ [']' :: '1' :: (['0', ';'] ++ b5.data),
       ']' :: '1' :: (['1', ';'] ++ a0.data),
       ']' :: '1' :: (['2', ';'] ++ b5.data),
       ']' :: '1' :: (['3', ';'] ++ b5.data),
       ']' :: '1' :: (['4', ';'] ++ a0.data)] ++
      [']' :: '4' :: ([';', '0', ';'] ++ a0.data),
       ']' :: '4' :: ([';', '1', ';'] ++ a1.data),
       ']' :: '4' :: ([';', '2', ';'] ++ a2.data),
       ']' :: '4' :: ([';', '3', ';'] ++ a3.data),
       ']' :: '4' :: ([';', '4', ';'] ++ a4.data),
       ']' :: '4' :: ([';', '5', ';'] ++ a5.data),
       ']' :: '4' :: ([';', '6', ';'] ++ a6.data),
       ']' :: '4' :: ([';', '7', ';'] ++ a7.data),
       ']' :: '4' :: ([';', '8', ';'] ++ a8.data),
       ']' :: '4' :: ([';', '9', ';'] ++ a9.data),
       ']' :: '4' :: ([';', '1', '0', ';'] ++ b0.data),
       ']' :: '4' :: ([';', '1', '1', ';'] ++ b1.data),
       ']' :: '4' :: ([';', '1', '2', ';'] ++ b2.data),
       ']' :: '4' :: ([';', '1', '3', ';'] ++ b3.data),
       ']' :: '4' :: ([';', '1', '4', ';'] ++ b4.data),
       ']' :: '4' :: ([';', '1', '5', ';'] ++ b5.data),
       ']' :: '6' :: (['6', ';'] ++ a0.data),
       ']' :: '4' :: ([';', '6', '6', ';'] ++ a0.data)], ∀ c ∈ m, c ≠ '\\' :=
      fun m hm c hc => (hmidchars m hm c hc).2.1
    have hmapW : ([spec_frag 10 b5,
       spec_frag 11 a0,
       spec_frag 12 b5,
       spec_frag 13 b5,
       spec_frag 14 a0,
       idx_frag 0 a0,
       idx_frag 1 a1,
       idx_frag 2 a2,
       idx_frag 3 a3,
       idx_frag 4 a4,
       idx_frag 5 a5,
       idx_frag 6 a6,
       idx_frag 7 a7,
       idx_frag 8 a8,
       idx_frag 9 a9,
       idx_frag 10 b0,
       idx_frag 11 b1,
       idx_frag 12 b2,
       idx_frag 13 b3,
       idx_frag 14 b4,
       idx_frag 15 b5,
       spec_frag 66 a0,
       idx_frag 66 a0]).map String.data = ([']' :: '1' :: (['0', ';'] ++ b5.data),
       ']' :: '1' :: (['1', ';'] ++ a0.data),
       ']' :: '1' :: (['2', ';'] ++ b5.data),
       ']' :: '1' :: (['3', ';'] ++ b5.data),
       ']' :: '1' :: (['4', ';'] ++ a0.data)] ++
      [']' :: '4' :: ([';', '0', ';'] ++ a0.data),
       ']' :: '4' :: ([';', '1', ';'] ++ a1.data),
       ']' :: '4' :: ([';', '2', ';'] ++ a2.data),
       ']' :: '4' :: ([';', '3', ';'] ++ a3.data),
       ']' :: '4' :: ([';', '4', ';'] ++ a4.data),
       ']' :: '4' :: ([';', '5', ';'] ++ a5.data),
       ']' :: '4' :: ([';', '6', ';'] ++ a6.data),
       ']' :: '4' :: ([';', '7', ';'] ++ a7.data),
       ']' :: '4' :: ([';', '8', ';'] ++ a8.data),
       ']' :: '4' :: ([';', '9', ';'] ++ a9.data),
       ']' :: '4' :: ([';', '1', '0', ';'] ++ b0.data),
       ']' :: '4' :: ([';', '1', '1', ';'] ++ b1.data),
       ']' :: '4' :: ([';', '1', '2', ';'] ++ b2.data),
       ']' :: '4' :: ([';', '1', '3', ';'] ++ b3.data),
       ']' :: '4' :: ([';', '1', '4', ';'] ++ b4.data),
       ']' :: '4' :: ([';', '1', '5', ';'] ++ b5.data),
       ']' :: '6' :: (['6', ';'] ++ a0.data),
       ']' :: '4' :: ([';', '6', '6', ';'] ++ a0.data)]).map escWrap := rfl
    have hdecode := ue_escWrap_join ([']' :: '1' :: (['0', ';'] ++ b5.data),
       ']' :: '1' :: (['1', ';'] ++ a0.data),
       ']' :: '1' :: (['2', ';'] ++ b5.data),
       ']' :: '1' :: (['3', ';'] ++ b5.data),
       ']' :: '1' :: (['4', ';'] ++ a0.data)] ++
      [']' :: '4' :: ([';', '0', ';'] ++ a0.data),
       ']' :: '4' :: ([';', '1', ';'] ++ a1.data),
       ']' :: '4' :: ([';', '2', ';'] ++ a2.data),
       ']' :: '4' :: ([';', '3', ';'] ++ a3.data),
       ']' :: '4' :: ([';', '4', ';'] ++ a4.data),
       ']' :: '4' :: ([';', '5', ';'] ++ a5.data),
       ']' :: '4' :: ([';', '6', ';'] ++ a6.data),
       ']' :: '4' :: ([';', '7', ';'] ++ a7.data),
       ']' :: '4' :: ([';', '8', ';'] ++ a8.data),
       ']' :: '4' :: ([';', '9', ';'] ++ a9.data),
       ']' :: '4' :: ([';', '1', '0', ';'] ++ b0.data),
       ']' :: '4' :: ([';', '1', '1', ';'] ++ b1.data),
       ']' :: '4' :: ([';', '1', '2', ';'] ++ b2.data),
       ']' :: '4' :: ([';', '1', '3', ';'] ++ b3.data),
       ']' :: '4' :: ([';', '1', '4', ';'] ++ b4.data),
       ']' :: '4' :: ([';', '1', '5', ';'] ++ b5.data),
       ']' :: '6' :: (['6', ';'] ++ a0.data),
       ']' :: '4' :: ([';', '6', '6', ';'] ++ a0.data)]) hnoBS
    have hasciiS : ∀ c ∈ (pyJoin ([spec_frag 10 b5,
       spec_frag 11 a0,
       spec_frag 12 b5,
       spec_frag 13 b5,
       spec_frag 14 a0,
       idx_frag 0 a0,
       idx_frag 1 a1,
       idx_frag 2 a2,
       idx_frag 3 a3,
       idx_frag 4 a4,
       idx_frag 5 a5,
       idx_frag 6 a6,
       idx_frag 7 a7,
       idx_frag 8 a8,
       idx_frag 9 a9,
       idx_frag 10 b0,
       idx_frag 11 b1,
       idx_frag 12 b2,
       idx_frag 13 b3,
       idx_frag 14 b4,
       idx_frag 15 b5,
       spec_frag 66 a0,
       idx_frag 66 a0])).data, c.toNat < 128 := by
      rw [pyJoin_data, hmapW]
      exact flatten_escWrap_ascii _ hmidchars
    have hfe : fix_escape (pyJoin ([spec_frag 10 b5,
       spec_frag 11 a0,
       spec_frag 12 b5,
       spec_frag 13 b5,
       spec_frag 14 a0,
       idx_frag 0 a0,
       idx_frag 1 a1,
       idx_frag 2 a2,
       idx_frag 3 a3,
       idx_frag 4 a4,
       idx_frag 5 a5,
       idx_frag 6 a6,
       idx_frag 7 a7,
       idx_frag 8 a8,
       idx_frag 9 a9,
       idx_frag 10 b0,
       idx_frag 11 b1,
       idx_frag 12 b2,
       idx_frag 13 b3,
       idx_frag 14 b4,
       idx_frag 15 b5,
       spec_frag 66 a0,
       idx_frag 66 a0])) =
        some (String.mk ((([']' :: '1' :: (['0', ';'] ++ b5.data),
       ']' :: '1' :: (['1', ';'] ++ a0.data),
       ']' :: '1' :: (['2', ';'] ++ b5.data),
       ']' :: '1' :: (['3', ';'] ++ b5.data),
       ']' :: '1' :: (['4', ';'] ++ a0.data)] ++
      [']' :: '4' :: ([';', '0', ';'] ++ a0.data),
       ']' :: '4' :: ([';', '1', ';'] ++ a1.data),
       ']' :: '4' :: ([';', '2', ';'] ++ a2.data),
       ']' :: '4' :: ([';', '3', ';'] ++ a3.data),
       ']' :: '4' :: ([';', '4', ';'] ++ a4.data),
       ']' :: '4' :: ([';', '5', ';'] ++ a5.data),
       ']' :: '4' :: ([';', '6', ';'] ++ a6.data),
       ']' :: '4' :: ([';', '7', ';'] ++ a7.data),
       ']' :: '4' :: ([';', '8', ';'] ++ a8.data),
       ']' :: '4' :: ([';', '9', ';'] ++ a9.data),
       ']' :: '4' :: ([';', '1', '0', ';'] ++ b0.data),
       ']' :: '4' :: ([';', '1', '1', ';'] ++ b1.data),
       ']' :: '4' :: ([';', '1', '2', ';'] ++ b2.data),
       ']' :: '4' :: ([';', '1', '3', ';'] ++ b3.data),
       ']' :: '4' :: ([';', '1', '4', ';'] ++ b4.data),
       ']' :: '4' :: ([';', '1', '5', ';'] ++ b5.data),
       ']' :: '6' :: (['6', ';'] ++ a0.data),
       ']' :: '4' :: ([';', '6', '6', ';'] ++ a0.data)]).map escDecoded).flatten)) := by
      rw [fix_escape_ascii _ hasciiS, pyJoin_data, hmapW, hdecode]
      rfl
    have hstep : send_sequences st [a0, a1, a2, a3, a4, a5, a6, a7, a8, a9, b0, b1, b2, b3, b4, b5] true =
        (set_colors_loop (set_special (set_special (set_special (set_special (set_special st 10 b5) 11 a0) 12 b5) 13 b5) 14 a0) 0 [a0, a1, a2, a3, a4, a5, a6, a7, a8, a9, b0, b1, b2, b3, b4, b5]).bind (fun st7x =>
          (fix_escape (pyJoin (set_special st7x 66 a0).sequences)).bind (fun blob =>
            some (set_special st7x 66 a0, blob))) := rfl
    have hsend : send_sequences st [a0, a1, a2, a3, a4, a5, a6, a7, a8, a9, b0, b1, b2, b3, b4, b5] true =
        some (set_special st7 66 a0, String.mk ((([']' :: '1' :: (['0', ';'] ++ b5.data),
       ']' :: '1' :: (['1', ';'] ++ a0.data),
       ']' :: '1' :: (['2', ';'] ++ b5.data),
       ']' :: '1' :: (['3', ';'] ++ b5.data),
       ']' :: '1' :: (['4', ';'] ++ a0.data)] ++
      [']' :: '4' :: ([';', '0', ';'] ++ a0.data),
       ']' :: '4' :: ([';', '1', ';'] ++ a1.data),
       ']' :: '4' :: ([';', '2', ';'] ++ a2.data),
       ']' :: '4' :: ([';', '3', ';'] ++ a3.data),
       ']' :: '4' :: ([';', '4', ';'] ++ a4.data),
       ']' :: '4' :: ([';', '5', ';'] ++ a5.data),
       ']' :: '4' :: ([';', '6', ';'] ++ a6.data),
       ']' :: '4' :: ([';', '7', ';'] ++ a7.data),
       ']' :: '4' :: ([';', '8', ';'] ++ a8.data),
       ']' :: '4' :: ([';', '9', ';'] ++ a9.data),
       ']' :: '4' :: ([';', '1', '0', ';'] ++ b0.data),
       ']' :: '4' :: ([';', '1', '1', ';'] ++ b1.data),
       ']' :: '4' :: ([';', '1', '2', ';'] ++ b2.data),
       ']' :: '4' :: ([';', '1', '3', ';'] ++ b3.data),
       ']' :: '4' :: ([';', '1', '4', ';'] ++ b4.data),
       ']' :: '4' :: ([';', '1', '5', ';'] ++ b5.data),
       ']' :: '6' :: (['6', ';'] ++ a0.data),
       ']' :: '4' :: ([';', '6', '6', ';'] ++ a0.data)]).map escDecoded).flatten)) := by
      rw [hstep, hst7]
      simp only [Option.some_bind]
      rw [hseq8, hfe]
      simp only [Option.some_bind]
    exact ⟨set_special st7 66 a0, String.mk ((([']' :: '1' :: (['0', ';'] ++ b5.data),
       ']' :: '1' :: (['1', ';'] ++ a0.data),
       ']' :: '1' :: (['2', ';'] ++ b5.data),
       ']' :: '1' :: (['3', ';'] ++ b5.data),
       ']' :: '1' :: (['4', ';'] ++ a0.data)] ++
      [']' :: '4' :: ([';', '0', ';'] ++ a0.data),
       ']' :: '4' :: ([';', '1', ';'] ++ a1.data),
       ']' :: '4' :: ([';', '2', ';'] ++ a2.data),
       ']' :: '4' :: ([';', '3', ';'] ++ a3.data),
       ']' :: '4' :: ([';', '4', ';'] ++ a4.data),
       ']' :: '4' :: ([';', '5', ';'] ++ a5.data),
       ']' :: '4' :: ([';', '6', ';'] ++ a6.data),
       ']' :: '4' :: ([';', '7', ';'] ++ a7.data),
       ']' :: '4' :: ([';', '8', ';'] ++ a8.data),
       ']' :: '4' :: ([';', '9', ';'] ++ a9.data),
       ']' :: '4' :: ([';', '1', '0', ';'] ++ b0.data),
       ']' :: '4' :: ([';', '1', '1', ';'] ++ b1.data),
       ']' :: '4' :: ([';', '1', '2', ';'] ++ b2.data),
       ']' :: '4' :: ([';', '1', '3', ';'] ++ b3.data),
       ']' :: '4' :: ([';', '1', '4', ';'] ++ b4.data),
       ']' :: '4' :: ([';', '1', '5', ';'] ++ b5.data),
       ']' :: '6' :: (['6', ';'] ++ a0.data),
       ']' :: '4' :: ([';', '6', '6', ';'] ++ a0.data)]).map escDecoded).flatten), a0,
      [']' :: '1' :: (['0', ';'] ++ b5.data),
       ']' :: '1' :: (['1', ';'] ++ a0.data),
       ']' :: '1' :: (['2', ';'] ++ b5.data),
       ']' :: '1' :: (['3', ';'] ++ b5.data),
       ']' :: '1' :: (['4', ';'] ++ a0.data)],
      [']' :: '4' :: ([';', '0', ';'] ++ a0.data),
       ']' :: '4' :: ([';', '1', ';'] ++ a1.data),
       ']' :: '4' :: ([';', '2', ';'] ++ a2.data),
       ']' :: '4' :: ([';', '3', ';'] ++ a3.data),
       ']' :: '4' :: ([';', '4', ';'] ++ a4.data),
       ']' :: '4' :: ([';', '5', ';'] ++ a5.data),
       ']' :: '4' :: ([';', '6', ';'] ++ a6.data),
       ']' :: '4' :: ([';', '7', ';'] ++ a7.data),
       ']' :: '4' :: ([';', '8', ';'] ++ a8.data),
       ']' :: '4' :: ([';', '9', ';'] ++ a9.data),
       ']' :: '4' :: ([';', '1', '0', ';'] ++ b0.data),
       ']' :: '4' :: ([';', '1', '1', ';'] ++ b1.data),
       ']' :: '4' :: ([';', '1', '2', ';'] ++ b2.data),
       ']' :: '4' :: ([';', '1', '3', ';'] ++ b3.data),
       ']' :: '4' :: ([';', '1', '4', ';'] ++ b4.data),
       ']' :: '4' :: ([';', '1', '5', ';'] ++ b5.data),
       ']' :: '6' :: (['6', ';'] ++ a0.data),
       ']' :: '4' :: ([';', '6', '6', ';'] ++ a0.data)], rfl, hsend, hpresSkip, hpostSkip, hpresChar, hpostChar, hs0, hhit,
      fun _ => ⟨by rw [hseq8, pyJoin_data, hmapW], rfl⟩,
      fun hv => absurd hv (by decide)⟩

/-- Empty scan. -/
theorem count708_nil : count708 [] = 0 := by simp [count708]

/-- Empty substitution. -/
theorem sub708_nil : sub708 [] = [] := by simp [sub708]

/-- C8: for every Palette of sixteen well-formed `#RRGGBB` colors, the
SequenceBlob rendered with `vteSafe = true` contains no fragment
addressing special index 708, and the blob rendered with
`vteSafe = false` contains exactly one, bound to slot 0's color. -/
theorem c8_vte_gating (colors : List String) (hlen : colors.length = 16)
    (hhex : ∀ c ∈ colors, isHexColor c = true) :
    (∃ st8 blob,
      send_sequences { initial_colortype with plain := colors } colors true =
        some (st8, blob) ∧
      count708 (pyJoin st8.sequences).data = 0) ∧
    (∃ st8 blob c0, colors[0]? = some c0 ∧
      send_sequences { initial_colortype with plain := colors } colors false =
        some (st8, blob) ∧
      count708 (pyJoin st8.sequences).data = 1 ∧
      ∃ pre post, (pyJoin st8.sequences).data =
        pre ++ (']' :: '7' :: '0' :: '8' :: ';' :: c0.data) ++ post) := by
  constructor
  · obtain ⟨st8, blob, c0, pres, posts, hg0, hsend, hpresS, hpostS, _, _, _, _, hconj⟩ :=
      send_sequences_master { initial_colortype with plain := colors } rfl
        colors hlen hhex true
    obtain ⟨hW, _⟩ := hconj.1 rfl
    refine ⟨st8, blob, hsend, ?_⟩
    rw [hW]
    have hAll : ∀ m ∈ pres ++ posts, SkipMid m := by
      intro m hm
      rcases List.mem_append.1 hm with h | h
      · exact hpresS m h
      · exact hpostS m h
    have h0 := count708_skip_join (pres ++ posts) [] hAll
    simpa [count708_nil] using h0
  · obtain ⟨st8, blob, c0, pres, posts, hg0, hsend, hpresS, hpostS, _, _, _, hhit, hconj⟩ :=
      send_sequences_master { initial_colortype with plain := colors } rfl
        colors hlen hhex false
    obtain ⟨hW, _⟩ := hconj.2 rfl
    refine ⟨st8, blob, c0, hg0, hsend, ?_, ?_⟩
    · rw [hW, List.map_append, List.flatten_append, List.map_cons, List.flatten_cons]
      rw [count708_skip_join pres _ hpresS]
      rw [count708_hit_frag _ _ hhit]
      have hp : count708 ((posts.map escWrap).flatten) = 0 := by
        have := count708_skip_join posts [] hpostS
        simpa [count708_nil] using this
      rw [hp]
    · refine ⟨(pres.map escWrap).flatten ++ ['\\', '0', '3', '3'],
        ['\\', '0', '0', '7'] ++ (posts.map escWrap).flatten, ?_⟩
      rw [hW, List.map_append, List.flatten_append, List.map_cons, List.flatten_cons]
      simp [escWrap, List.append_assoc]

/-- C8 instantiated at a concrete well-formed palette. -/
theorem c8_witness :
    (∃ st8 blob,
      send_sequences { initial_colortype with plain := c3Palette } c3Palette true =
        some (st8, blob) ∧
      count708 (pyJoin st8.sequences).data = 0) ∧
    (∃ st8 blob c0, c3Palette[0]? = some c0 ∧
      send_sequences { initial_colortype with plain := c3Palette } c3Palette false =
        some (st8, blob) ∧
      count708 (pyJoin st8.sequences).data = 1 ∧
      ∃ pre post, (pyJoin st8.sequences).data =
        pre ++ (']' :: '7' :: '0' :: '8' :: ';' :: c0.data) ++ post) :=
  c8_vte_gating c3Palette (by decide) (by decide)

/-- Splitting and re-joining text without line breaks gives it back. -/
theorem splitlinesAux_noLB (l : List Char) (h : ∀ c ∈ l, isLB c = false) :
    ∀ acc : List Char,
      pyJoin (splitlinesAux false acc l) = String.mk (acc.reverse ++ l) := by
  induction l with
  | nil =>
    intro acc
    by_cases hacc : acc.isEmpty
    · rw [show acc = [] from by simpa [List.isEmpty_iff] using hacc]
      rfl
    · simp [splitlinesAux, hacc, pyJoin]
  | cons c rest ih =>
    intro acc
    have hlb : isLB c = false := h c (by simp)
    have h13 : ¬(c.toNat = 13) := by
      have hx := hlb
      simp [isLB] at hx
      omega
    rw [show splitlinesAux false acc (c :: rest) = splitlinesAux false (c :: acc) rest by
      simp [splitlinesAux, h13, hlb]]
    rw [ih (fun d hd => h d (by simp [hd])) (c :: acc)]
    simp

/-- `"".join(s.splitlines())` is the identity on break-free text. -/
theorem pyJoin_splitlines (s : String) (h : ∀ c ∈ s.data, isLB c = false) :
    pyJoin (pySplitlines s) = s := by
  have := splitlinesAux_noLB s.data h []
  simpa using this

/-- C7: rendering a well-formed Palette with `vteSafe = false` persists a
decoded blob; reloading that blob with `vteSafe` requested strips the 708
fragment (the written output contains none), decodes, writes the result to
standard output and exits 0; reloading without `vteSafe` writes the blob
back verbatim and exits 0. -/
theorem c7_reload (colors : List String) (hlen : colors.length = 16)
    (hhex : ∀ c ∈ colors, isHexColor c = true) :
    ∃ st8 blob,
      send_sequences { initial_colortype with plain := colors } colors false =
        some (st8, blob) ∧
      (∃ out, reload_colors (some blob) true = some (out, 0) ∧
        count708 out.data = 0) ∧
      reload_colors (some blob) false = some (blob, 0) := by
  obtain ⟨st8, blob, c0, pres, posts, hg0, hsend, hpresS, hpostS, hpresC, hpostC,
    hc0C, hhit, hconj⟩ :=
    send_sequences_master { initial_colortype with plain := colors } rfl
      colors hlen hhex false
  obtain ⟨_, hD⟩ := hconj.2 rfl
  have hblobChar : ∀ c ∈ blob.data, seqChar c := by
    rw [hD]
    apply flatten_escDecoded_seqChar
    intro m hm
    rcases List.mem_append.1 hm with hp | hq
    · exact hpresC m hp
    · rcases List.mem_cons.1 hq with rfl | hq
      · intro c hc
        rcases List.mem_cons.1 hc with rfl | hc
        · exact ⟨by decide, by decide, by decide⟩
        rcases List.mem_cons.1 hc with rfl | hc
        · exact ⟨by decide, by decide, by decide⟩
        rcases List.mem_cons.1 hc with rfl | hc
        · exact ⟨by decide, by decide, by decide⟩
        rcases List.mem_cons.1 hc with rfl | hc
        · exact ⟨by decide, by decide, by decide⟩
        rcases List.mem_cons.1 hc with rfl | hc
        · exact ⟨by decide, by decide, by decide⟩
        · exact hc0C c hc
      · exact hpostC m hq
  have hjoin : pyJoin (pySplitlines blob) = blob :=
    pyJoin_splitlines blob (fun c hc => (hblobChar c hc).2.2)
  have hsub : sub708 blob.data =
      ((pres.map escDecoded).flatten) ++
        Char.ofNat 27 :: Char.ofNat 7 :: ((posts.map escDecoded).flatten) := by
    rw [hD, List.map_append, List.flatten_append, List.map_cons, List.flatten_cons]
    rw [sub708_skip_djoin pres _ hpresS]
    rw [sub708_hit_dfrag _ _ hhit]
    have hq : sub708 ((posts.map escDecoded).flatten) = (posts.map escDecoded).flatten := by
      have := sub708_skip_djoin posts [] hpostS
      simpa [sub708_nil] using this
    rw [hq]
  have hsubChar : ∀ c ∈ ((pres.map escDecoded).flatten) ++
      Char.ofNat 27 :: Char.ofNat 7 :: ((posts.map escDecoded).flatten), seqChar c := by
    intro c hc
    rcases List.mem_append.1 hc with hp | hq
    · exact flatten_escDecoded_seqChar pres hpresC c hp
    · rcases List.mem_cons.1 hq with rfl | hq
      · exact ⟨by decide, by decide, by decide⟩
      rcases List.mem_cons.1 hq with rfl | hq
      · exact ⟨by decide, by decide, by decide⟩
      · exact flatten_escDecoded_seqChar posts hpostC c hq
  have hfe1 : fix_escape (String.mk (sub708 blob.data)) =
      some (String.mk (((pres.map escDecoded).flatten) ++
        Char.ofNat 27 :: Char.ofNat 7 :: ((posts.map escDecoded).flatten))) := by
    rw [hsub]
    exact fix_escape_id _ (fun c hc => (hsubChar c hc).1) (fun c hc => (hsubChar c hc).2.1)
  have hcount : count708 (((pres.map escDecoded).flatten) ++
      Char.ofNat 27 :: Char.ofNat 7 :: ((posts.map escDecoded).flatten)) = 0 := by
    rw [count708_skip_djoin pres _ hpresS]
    rw [count708_cons_ne (Char.ofNat 27) _ (by decide),
      count708_cons_ne (Char.ofNat 7) _ (by decide)]
    have := count708_skip_djoin posts [] hpostS
    simpa [count708_nil] using this
  have hunfT : reload_colors (some blob) true =
      (fix_escape (String.mk (sub708 (pyJoin (pySplitlines blob)).data))).map
        (fun out => (out, 0)) := rfl
  have hunfF : reload_colors (some blob) false =
      (fix_escape (pyJoin (pySplitlines blob))).map (fun out => (out, 0)) := rfl
  refine ⟨st8, blob, hsend,
    ⟨String.mk (((pres.map escDecoded).flatten) ++
      Char.ofNat 27 :: Char.ofNat 7 :: ((posts.map escDecoded).flatten)), ?_, hcount⟩, ?_⟩
  · rw [hunfT, hjoin, hfe1]
    rfl
  · rw [hunfF, hjoin,
      fix_escape_id blob (fun c hc => (hblobChar c hc).1) (fun c hc => (hblobChar c hc).2.1)]
    rfl

/-- C7 instantiated at a concrete well-formed palette. -/
theorem c7_witness :
    ∃ st8 blob,
      send_sequences { initial_colortype with plain := c3Palette } c3Palette false =
        some (st8, blob) ∧
      (∃ out, reload_colors (some blob) true = some (out, 0) ∧
        count708 out.data = 0) ∧
      reload_colors (some blob) false = some (blob, 0) :=
  c7_reload c3Palette (by decide) (by decide)

/-- The retry loop stops at the first sufficient request: if the requests
at indices `index, ..., index + n - 1` are insufficient and the one at
`index + n` is sufficient, then with fuel at least `n` the loop requests
exactly the counts `COLOR_COUNT + index, ..., COLOR_COUNT + index + n` in
order and returns the sufficient response. -/
theorem genRetry_stops (im : Nat → List String) :
    ∀ n index fuel,
      (∀ k, index ≤ k → k < index + n →
        (im (COLOR_COUNT + k)).length - 1 < COLOR_COUNT) →
      ¬ (im (COLOR_COUNT + (index + n))).length - 1 < COLOR_COUNT →
      n ≤ fuel →
      genRetry im fuel index =
        (List.range' (COLOR_COUNT + index) (n + 1),
          some (im (COLOR_COUNT + (index + n)))) := by
  intro n
  induction n with
  | zero =>
    intro index fuel _ hn _
    have hn0 : ¬ (im (COLOR_COUNT + index)).length - 1 < COLOR_COUNT := by
      simpa using hn
    cases fuel <;> simp [genRetry, hn0, List.range']
  | succ m ih =>
    intro index fuel hmin hn hfuel
    have hcond : (im (COLOR_COUNT + index)).length - 1 < COLOR_COUNT :=
      hmin index (le_refl index) (by omega)
    rcases fuel with _ | f
    · omega
    have hshift : index + 1 + m = index + (m + 1) := by omega
    have hrec := ih (index + 1) f
      (fun k hk1 hk2 => hmin k (by omega) (by omega))
      (by rw [hshift]; exact hn)
      (by omega)
    rw [hshift] at hrec
    have hstep : genRetry im (f + 1) index =
        ((COLOR_COUNT + index) :: (genRetry im f (index + 1)).1,
          (genRetry im f (index + 1)).2) := by
      simp [genRetry, hcond]
    rw [hstep, hrec]
    have hr : List.range' (COLOR_COUNT + index) (m + 1 + 1) =
        (COLOR_COUNT + index) :: List.range' (COLOR_COUNT + (index + 1)) (m + 1) := by
      rw [List.range'_succ, Nat.add_assoc]
    rw [hr]

/-- A never-sufficient oracle exhausts any fuel bound: with fuel `f` the
loop makes `f + 1` requests of strictly increasing counts and the Python
loop it models never exits. -/
theorem genRetry_diverges (im : Nat → List String)
    (h : ∀ k, (im (COLOR_COUNT + k)).length - 1 < COLOR_COUNT) :
    ∀ fuel index, genRetry im fuel index =
      (List.range' (COLOR_COUNT + index) (fuel + 1), none) := by
  intro fuel
  induction fuel with
  | zero =>
    intro index
    simp [genRetry, h index, List.range']
  | succ f ih =>
    intro index
    have hcond := h index
    have hstep : genRetry im (f + 1) index =
        ((COLOR_COUNT + index) :: (genRetry im f (index + 1)).1,
          (genRetry im f (index + 1)).2) := by
      simp [genRetry, hcond]
    rw [hstep, ih (index + 1)]
    have hr : List.range' (COLOR_COUNT + index) (f + 1 + 1) =
        (COLOR_COUNT + index) :: List.range' (COLOR_COUNT + (index + 1)) (f + 1) := by
      rw [List.range'_succ, Nat.add_assoc]
    rw [hr]

/-- C9: on a cache miss the quantizer is first asked for exactly 16
colors, and each response with fewer than 16 entries beyond the header
triggers a re-request with the count incremented by one; with `n` the
first retry index whose response has at least 16 entries beyond the
header, the loop requests exactly the counts 16, 17, ..., 16 + n in this
order and stops there, `gen_colors` then extracting the hex swatches from
that response; and for an oracle that never returns enough lines, every
fuel bound is exhausted with the requested counts still 16, 17, ... —
the Python loop repeats without bound. -/
theorem c9_retry (im : Nat → List String) (n : Nat)
    (hmin : ∀ k, k < n → (im (COLOR_COUNT + k)).length - 1 < COLOR_COUNT)
    (hn : ¬ (im (COLOR_COUNT + n)).length - 1 < COLOR_COUNT) :
    (∀ fuel, n ≤ fuel →
      genRetry im fuel 0 =
        (List.range' COLOR_COUNT (n + 1), some (im (COLOR_COUNT + n))) ∧
      gen_colors im fuel =
        (List.range' COLOR_COUNT (n + 1),
          (im (COLOR_COUNT + n)).tail.mapM
            (fun col => (reSearchHex col.data).map String.mk))) ∧
    (∀ im2 : Nat → List String,
      (∀ k, (im2 (COLOR_COUNT + k)).length - 1 < COLOR_COUNT) →
      ∀ fuel index, genRetry im2 fuel index =
        (List.range' (COLOR_COUNT + index) (fuel + 1), none)) := by
  constructor
  · intro fuel hfuel
    have hstop := genRetry_stops im n 0 fuel
      (fun k hk1 hk2 => hmin k (by omega))
      (by simpa using hn) hfuel
    simp only [Nat.add_zero, Nat.zero_add] at hstop
    refine ⟨hstop, ?_⟩
    have hC : COLOR_COUNT = 16 := rfl
    have hlen : 17 ≤ (im (COLOR_COUNT + n)).length := by
      omega
    rcases hraw : im (COLOR_COUNT + n) with _ | ⟨a, rest⟩
    · rw [hraw] at hlen; simp at hlen
    · simp only [gen_colors, hstop, hraw]
      rfl
  · exact genRetry_diverges

/-- C6: when a cache file exists for the sanitized image identifier,
`get_colors` returns its line contents unchanged — split into lines with
no validation of their number or form — never invokes the quantizer,
sends no notification, and modifies only the wallpaper record. -/
theorem c6_cache_hit (im : Nat → List String) (fuel : Nat) (fs : FS)
    (img content : String)
    (h : fs.schemes (pyReplaceSlash img) = some content) :
    get_colors im fuel fs img =
      ({ fs with wal := some img }, ⟨[], []⟩, some (pySplitlines content)) := by
  simp [get_colors, h]

/-- C10: every `get_colors` invocation overwrites the wallpaper record
with the image path — on the hit path, the miss path, and even when the
miss path raises — and on a cache hit the wallpaper record is the only
cache state modified. -/
theorem c10_wal_record (im : Nat → List String) (fuel : Nat) (fs : FS)
    (img : String) :
    (get_colors im fuel fs img).1.wal = some img ∧
    (∀ content, fs.schemes (pyReplaceSlash img) = some content →
      (get_colors im fuel fs img).1 = { fs with wal := some img }) := by
  constructor
  · unfold get_colors
    rcases h : fs.schemes (pyReplaceSlash img) with _ | content
    · simp only [h]
      rcases h2 : (gen_colors im fuel).2 with _ | hexes
      · simp [h2]
      · rcases h3 : sort_colors hexes with _ | palette <;> simp [h2, h3]
    · simp [h]
  · intro content hc
    unfold get_colors
    simp [hc]

/-- C9 at concrete oracles: a first response of 3 lines and a second of 17
gives the requested counts 16 then 17; a forever-empty oracle exhausts a
fuel bound of 5 after requesting 16 through 21. -/
theorem c9_witness :
    genRetry (fun m => List.replicate (if m = 17 then 17 else 3) "0: # #aabbcc") 2 0 =
      ([16, 17], some (List.replicate 17 "0: # #aabbcc")) ∧
    genRetry (fun _ => ([] : List String)) 5 0 = ([16, 17, 18, 19, 20, 21], none) := by
  have h := c9_retry (fun m => List.replicate (if m = 17 then 17 else 3) "0: # #aabbcc") 1
    (by intro k hk
        have hk0 : k = 0 := by omega
        subst hk0
        decide)
    (by decide)
  exact ⟨(h.1 2 (by omega)).1,
    h.2 (fun _ => ([] : List String)) (fun k => by simp [COLOR_COUNT]) 5 0⟩

/-- C6 at a concrete state: a cache hit for the image path a/b, whose
cache file holds three lines of arbitrary non-palette form. -/
theorem c6_witness :
    get_colors (fun _ => ([] : List String)) 0
        ⟨none, fun k => if k = "a_b" then some "p\nq r\ns" else none⟩ "a/b" =
      (⟨some "a/b", fun k => if k = "a_b" then some "p\nq r\ns" else none⟩,
        ⟨[], []⟩, some ["p", "q r", "s"]) := by
  have h := c6_cache_hit (fun _ => ([] : List String)) 0
    ⟨none, fun k => if k = "a_b" then some "p\nq r\ns" else none⟩ "a/b" "p\nq r\ns"
    (by decide)
  exact h

/-- C10 at a concrete state: the wallpaper record after a cache-hit run. -/
theorem c10_witness :
    (get_colors (fun _ => ([] : List String)) 0
        ⟨none, fun k => if k = "a_b" then some "x" else none⟩ "a/b").1.wal =
      some "a/b" :=
  (c10_wal_record (fun _ => ([] : List String)) 0
    ⟨none, fun k => if k = "a_b" then some "x" else none⟩ "a/b").1

end Pywal
